import Mathlib

/-! # qrtz/fs : the file server of `fileserver.go`

A shallow embedding of `fileserver.go` (package `fs`) and the properties of its
response interceptor, indexed directory adapter and facade.

Modelling conventions.

* A Go `string` and a Go `[]byte` are both byte sequences: `GoString`.
* A Go `error` is `Option GoError` (`none` is `nil`); the two package-level
  error values are constructors of their own, every other error is `ext`.
* A pointer receiver that is mutated becomes explicit state passing: a method
  takes the old value and returns the new one next to its Go results.
* The real `http.ResponseWriter` handed to `ServeHTTP` is a log of the calls it
  has received; the result of its `Write` is an arbitrary function of that log
  and the bytes.
* The Go `int` of a status code is only stored and compared, never computed
  with, so it is an `Int`.
-/

namespace Fs

/-- A Go string or byte slice: a sequence of bytes. -/
abbrev GoString := List UInt8

/-- The bytes of a string literal of the Go source (its UTF-8 encoding). -/
def str (s : String) : GoString := s.data.flatMap String.utf8EncodeChar

/-- Go error values: `errNoContentWritten` and `errForbidden` of lines 10-13,
and any error made elsewhere (by the transport or the file system). -/
inductive GoError where
  | errNoContentWritten
  | errForbidden
  | ext (msg : GoString)
  deriving DecidableEq, Repr

/-- The constant `http.StatusBadRequest`. -/
def StatusBadRequest : Int := 400
/-- The constant `http.StatusForbidden`. -/
def StatusForbidden : Int := 403
/-- The constant `http.StatusNotFound`. -/
def StatusNotFound : Int := 404
/-- The constant `http.StatusMovedPermanently`. -/
def StatusMovedPermanently : Int := 301

/-! ## The real response writer -/

/-- A call received by the real `http.ResponseWriter`. -/
inductive WEvent where
  | setHeader (key value : GoString)
  | writeHeader (code : Int)
  | write (b : GoString)
  deriving DecidableEq, Repr

/-- The real `http.ResponseWriter` of a request: the calls it has received so
far, oldest first, and what its `Write` answers (count and error) given those
calls and the bytes offered. -/
structure RealWriter where
  events : List WEvent
  writeRes : List WEvent → GoString → Int × Option GoError

/-- The real writer's `Header().Set(key, value)`. -/
def RealWriter.HeaderSet (w : RealWriter) (key value : GoString) : RealWriter :=
  { w with events := w.events ++ [WEvent.setHeader key value] }

/-- The real writer's `WriteHeader(code)`. -/
def RealWriter.WriteHeader (w : RealWriter) (code : Int) : RealWriter :=
  { w with events := w.events ++ [WEvent.writeHeader code] }

/-- The real writer's `Write(b)`. -/
def RealWriter.Write (w : RealWriter) (b : GoString) :
    RealWriter × (Int × Option GoError) :=
  ({ w with events := w.events ++ [WEvent.write b] }, w.writeRes w.events b)

/-! ## ResponseWrapper (lines 15-38) -/

/-- The struct `ResponseWrapper`: the embedded real writer, `statusCode`, `buf`. -/
structure ResponseWrapper where
  rw : RealWriter
  statusCode : Int
  buf : GoString

/-- The method `Header` (lines 21-23) followed by `Set(key, value)` on the map
it returns: the header map is the real writer's. -/
def ResponseWrapper.HeaderSet (w : ResponseWrapper) (key value : GoString) :
    ResponseWrapper :=
  { w with rw := w.rw.HeaderSet key value }

/-- The method `Write` (lines 25-31). -/
def ResponseWrapper.Write (w : ResponseWrapper) (b : GoString) :
    ResponseWrapper × (Int × Option GoError) :=
  if w.statusCode < StatusBadRequest then
    let r := w.rw.Write b
    ({ w with rw := r.1 }, r.2)
  else
    ({ w with buf := b }, (0, some GoError.errNoContentWritten))

/-- The method `WriteHeader` (lines 33-38). -/
def ResponseWrapper.WriteHeader (w : ResponseWrapper) (code : Int) : ResponseWrapper :=
  let w1 := { w with statusCode := code }
  if code < StatusBadRequest then
    { w1 with rw := w1.rw.WriteHeader code }
  else
    w1

/-- One call made on a `ResponseWrapper` by the code that writes the response. -/
inductive Call where
  | WriteHeader (code : Int)
  | Write (b : GoString)
  deriving DecidableEq, Repr

/-- Perform one call; a `Write` also yields its Go results. -/
def ResponseWrapper.step (w : ResponseWrapper) :
    Call → ResponseWrapper × Option (Int × Option GoError)
  | Call.WriteHeader code => (w.WriteHeader code, none)
  | Call.Write b => ((w.Write b).1, some (w.Write b).2)

/-- Perform a sequence of calls in order, keeping the wrapper's final state. -/
def ResponseWrapper.run (w : ResponseWrapper) : List Call → ResponseWrapper
  | [] => w
  | c :: cs => ResponseWrapper.run (w.step c).1 cs

/-- A transport that accepts every write in full: `Write(b)` answers `(len(b), nil)`. -/
def okTransport : RealWriter :=
  { events := [], writeRes := fun _ b => ((b.length : Int), none) }

/-! ## Library functions used by the source -/

/-- The method set of the interface `http.ResponseWriter`, as used by the code
here: `Header().Set`, `Write` and `WriteHeader` on a receiver of type `σ`. -/
structure ResponseWriter (σ : Type) where
  HeaderSet : σ → GoString → GoString → σ
  Write : σ → GoString → σ × (Int × Option GoError)
  WriteHeader : σ → Int → σ

/-- The real writer seen through the interface. -/
def RealWriter.asWriter : ResponseWriter RealWriter :=
  { HeaderSet := RealWriter.HeaderSet
    Write := RealWriter.Write
    WriteHeader := RealWriter.WriteHeader }

/-- A `*ResponseWrapper` seen through the interface. -/
def ResponseWrapper.asWriter : ResponseWriter ResponseWrapper :=
  { HeaderSet := ResponseWrapper.HeaderSet
    Write := ResponseWrapper.Write
    WriteHeader := ResponseWrapper.WriteHeader }

/-- The library function `http.Error(w, error, code)`: it sets the two
plain-text headers, writes the status, and prints `error` and a newline with a
single `Write`, whose results it ignores. -/
def httpError {σ : Type} (I : ResponseWriter σ) (w : σ) (error : GoString)
    (code : Int) : σ :=
  let w1 := I.HeaderSet w (str "Content-Type") (str "text/plain; charset=utf-8")
  let w2 := I.HeaderSet w1 (str "X-Content-Type-Options") (str "nosniff")
  let w3 := I.WriteHeader w2 code
  (I.Write w3 (error ++ str "\n")).1

/-- The library function `http.NotFound(w, r)`. -/
def httpNotFound {σ : Type} (I : ResponseWriter σ) (w : σ) : σ :=
  httpError I w (str "404 page not found") StatusNotFound

/-- The library function `strings.HasPrefix(s, p)`. -/
def HasPrefix (s p : GoString) : Bool :=
  decide (p.length ≤ s.length) && decide (s.take p.length = p)

/-- The library function `strings.TrimPrefix(s, p)`. -/
def TrimPrefix (s p : GoString) : GoString :=
  if HasPrefix s p then s.drop p.length else s

/-! ## The underlying file system -/

deriving instance DecidableEq for Except

/-- An open `http.File`: the identity of the handle, the name it was opened
under, and what its `Stat()` answers: an error, or whether `IsDir()` holds. -/
structure File where
  hid : Nat
  name : GoString
  stat : Except GoError Bool
  deriving DecidableEq, Repr

/-- What happened on the underlying `http.FileSystem` and its handles. -/
inductive FsEvent where
  | opened (name : GoString) (hid : Nat)
  | openFailed (name : GoString) (err : GoError)
  | closed (hid : Nat)
  deriving DecidableEq, Repr

/-- The underlying `http.FileSystem`: for every name what `Open` finds there
(an error, or an entry with the answer of its `Stat()`), and the log of the
opens and closes made so far, oldest first. The tree does not change while a
request is served. -/
structure FileSystem where
  tree : GoString → Except GoError (Except GoError Bool)
  log : List FsEvent

/-- The underlying `Open(name)`; a successful open makes a fresh handle. -/
def FileSystem.Open (fs : FileSystem) (name : GoString) :
    FileSystem × Except GoError File :=
  match fs.tree name with
  | Except.error e =>
    ({ fs with log := fs.log ++ [FsEvent.openFailed name e] }, Except.error e)
  | Except.ok st =>
    ({ fs with log := fs.log ++ [FsEvent.opened name fs.log.length] },
      Except.ok { hid := fs.log.length, name := name, stat := st })

/-- The method `Close()` of a handle (its error result is ignored by the source). -/
def FileSystem.Close (fs : FileSystem) (f : File) : FileSystem :=
  { fs with log := fs.log ++ [FsEvent.closed f.hid] }

/-! ## Dir (lines 40-78) -/

/-- The struct `Dir`. -/
structure Dir where
  autoIndex : Bool
  index : List GoString
  err : Option GoError
  fs : FileSystem

/-- The loop of lines 63-68 up to its `return`: open `join(name, index)` for
each index in order and stop at the first that opens. -/
def Dir.openIndex (join : GoString → GoString → GoString) (fs : FileSystem)
    (name : GoString) : List GoString → FileSystem × Option File
  | [] => (fs, none)
  | index :: rest =>
    match fs.Open (join name index) with
    | (fs1, Except.ok ff) => (fs1, some ff)
    | (fs1, Except.error _) => Dir.openIndex join fs1 name rest

/-- The method `Open` (lines 47-78); `join` is `filepath.Join`. -/
def Dir.Open (join : GoString → GoString → GoString) (d : Dir) (name : GoString) :
    Dir × Except GoError File :=
  match d.fs.Open name with
  | (fs1, Except.error err) => ({ d with fs := fs1, err := some err }, Except.error err)
  | (fs1, Except.ok f) =>
    match f.stat with
    | Except.error err => ({ d with fs := fs1, err := some err }, Except.error err)
    | Except.ok isDir =>
      if isDir then
        match Dir.openIndex join fs1 name d.index with
        | (fs2, some ff) => ({ d with fs := fs2.Close f }, Except.ok ff)
        | (fs2, none) =>
          if !d.autoIndex then
            ({ d with fs := fs2.Close f, err := some GoError.errForbidden },
              Except.error GoError.errForbidden)
          else
            ({ d with fs := fs2 }, Except.ok f)
      else
        ({ d with fs := fs1 }, Except.ok f)

/-! ## The request and the platform -/

/-- The fields of `*http.Request` the source reads or writes: `URL.Path` and
`URL.RawQuery`. The request is a pointer, so a write to `URL.Path` is seen by
everything that runs later. -/
structure Request where
  path : GoString
  rawQuery : GoString
  deriving DecidableEq, Repr

/-- A client of the interceptor and of the adapter: the calls that the handler
returned by `http.FileServer` may make, each followed by what it does with the
call's results. It writes through the `http.ResponseWriter` it was given, opens
names through the `http.FileSystem` it was built on, and may set `URL.Path`. -/
inductive Prim where
  | done
  | headerSet (key value : GoString) (next : Prim)
  | writeHeader (code : Int) (next : Prim)
  | write (b : GoString) (next : Int × Option GoError → Prim)
  | openFile (name : GoString) (next : Except GoError File → Prim)
  | setPath (p : GoString) (next : Prim)

/-- What the library supplies to the source: `filepath.Base`, `filepath.Dir`,
`filepath.Join` (all three depend on the operating system), the tree behind
`http.Dir(root)`, and what `http.FileServer(fs).ServeHTTP(w, r)` does for a
request. -/
structure Platform where
  filepathBase : GoString → GoString
  filepathDir : GoString → GoString
  filepathJoin : GoString → GoString → GoString
  httpDir : GoString → GoString → Except GoError (Except GoError Bool)
  httpFileServer : Request → Prim

/-- The state a serving primitive acts on: the adapter, the interceptor and the
request. -/
structure Serving where
  d : Dir
  w : ResponseWrapper
  r : Request

/-- Run a primitive against the adapter and the interceptor: every call goes to
the method of the source that implements it. -/
def Prim.run (P : Platform) : Prim → Serving → Serving
  | Prim.done, s => s
  | Prim.headerSet key value next, s =>
    Prim.run P next { s with w := s.w.HeaderSet key value }
  | Prim.writeHeader code next, s =>
    Prim.run P next { s with w := s.w.WriteHeader code }
  | Prim.write b next, s =>
    Prim.run P (next (s.w.Write b).2) { s with w := (s.w.Write b).1 }
  | Prim.openFile name next, s =>
    Prim.run P (next (Dir.Open P.filepathJoin s.d name).2)
      { s with d := (Dir.Open P.filepathJoin s.d name).1 }
  | Prim.setPath p next, s =>
    Prim.run P next { s with r := { s.r with path := p } }

/-! ## FileServer (lines 80-188) -/

/-- The type `ErrorHandlerFunc`: a handler acts on the writer it is given, for
the request and the status code it is given. -/
abbrev ErrorHandlerFunc := RealWriter → Request → Int → RealWriter

/-- The values the field `handlerFunc` takes: the closure of lines 178-180
(`serve`), and the closure of lines 112-123 made by `StripPrefix`, which has
captured the previous value of the field (`strip previous`). -/
inductive HandlerFunc where
  | serve
  | strip (previous : HandlerFunc)
  deriving DecidableEq, Repr

/-- The struct `FileServer`. The Go map `errorHandler` gives for a key `none`
when the key is absent and `some fn` when it is present, where `fn` is `none`
for a nil function value. -/
structure FileServer where
  errorHandler : Int → Option (Option ErrorHandlerFunc)
  autoIndex : Bool
  index : List GoString
  pathPrefix : GoString
  root : GoString
  handlerFunc : HandlerFunc

/-- The method `ErrorHandler` (lines 93-95). -/
def FileServer.ErrorHandler (f : FileServer) (code : Int)
    (fn : Option ErrorHandlerFunc) : FileServer :=
  { f with errorHandler := fun c => if c = code then some fn else f.errorHandler c }

/-- The method `AutoIndex` (lines 98-100). -/
def FileServer.AutoIndex (f : FileServer) (autoIndex : Bool) : FileServer :=
  { f with autoIndex := autoIndex }

/-- The method `Index` (lines 103-105). -/
def FileServer.Index (f : FileServer) (index : List GoString) : FileServer :=
  { f with index := index }

/-- The method `StripPrefix` (lines 109-124): it stores the prefix and wraps
the current value of `handlerFunc`. -/
def FileServer.StripPrefix (f : FileServer) (p : GoString) : FileServer :=
  { f with pathPrefix := p, handlerFunc := HandlerFunc.strip f.handlerFunc }

/-- Lines 159-162 of `handleError`: the value of `fn` before it is tested
against nil. A lookup of an absent key in a Go map gives the nil function. -/
def FileServer.lookupHandler (f : FileServer) (statusCode : Int) :
    Option ErrorHandlerFunc :=
  match f.errorHandler statusCode with
  | some fn => fn
  | none =>
    match f.errorHandler 0 with
    | some fn => fn
    | none => none

/-- The method `handleError` (lines 158-168). -/
def FileServer.handleError (f : FileServer) (w : ResponseWrapper) (r : Request) :
    ResponseWrapper :=
  match f.lookupHandler w.statusCode with
  | some fn => { w with rw := fn w.rw r w.statusCode }
  | none => { w with rw := httpError RealWriter.asWriter w.rw w.buf w.statusCode }

/-- Lines 145-147 of `serveHTTP`: the adapter, the interceptor and the request
as they are when `http.FileServer(fileSystem).ServeHTTP(w, r)` has returned. -/
def FileServer.afterPrimitive (P : Platform) (f : FileServer) (w : ResponseWrapper)
    (r : Request) : Serving :=
  let fileSystem : Dir :=
    { autoIndex := f.autoIndex, index := f.index, err := none,
      fs := { tree := P.httpDir f.root, log := [] } }
  Prim.run P (P.httpFileServer r) { d := fileSystem, w := w, r := r }

/-- The method `serveHTTP` (lines 144-156). -/
def FileServer.serveHTTP (P : Platform) (f : FileServer) (w : ResponseWrapper)
    (r : Request) : ResponseWrapper × Request :=
  let s := f.afterPrimitive P w r
  if s.w.statusCode ≥ StatusBadRequest then
    let w1 :=
      if s.d.err = some GoError.errForbidden then
        { s.w with statusCode := StatusForbidden }
      else s.w
    (f.handleError w1 s.r, s.r)
  else
    (s.w, s.r)

/-- Calling a value of the field `handlerFunc` with `(s, w, r)`. -/
def HandlerFunc.call (P : Platform) :
    HandlerFunc → FileServer → ResponseWrapper → Request → ResponseWrapper × Request
  | HandlerFunc.serve, s, w, r => s.serveHTTP P w r
  | HandlerFunc.strip previous, s, w, r =>
    let p := TrimPrefix r.path s.pathPrefix
    if p.length = r.path.length then
      (s.handleError (httpNotFound ResponseWrapper.asWriter w) r, r)
    else
      HandlerFunc.call P previous s w { r with path := p }

/-- The loop of lines 129-139: `some` of the writer after the redirect when an
index equals `name`, `none` when the loop ends without a match. -/
def FileServer.redirect (P : Platform) (w : RealWriter) (r : Request)
    (name : GoString) : List GoString → Option RealWriter
  | [] => none
  | index :: rest =>
    if index = name then
      let path := P.filepathDir r.path
      let path := if r.rawQuery ≠ [] then path ++ (str "?" ++ r.rawQuery) else path
      some ((w.HeaderSet (str "Location") path).WriteHeader StatusMovedPermanently)
    else
      FileServer.redirect P w r name rest

/-- The method `ServeHTTP` (lines 126-142): the real writer and the request as
they are when it returns. -/
def FileServer.ServeHTTP (P : Platform) (f : FileServer) (w : RealWriter)
    (r : Request) : RealWriter × Request :=
  let name := P.filepathBase r.path
  match FileServer.redirect P w r name f.index with
  | some w1 => (w1, r)
  | none =>
    let res := f.handlerFunc.call P f { rw := w, statusCode := 0, buf := [] } r
    (res.1.rw, res.2)

/-- The function `New` (lines 173-188); an option is a function on the server. -/
def New (root : GoString) (options : List (FileServer → FileServer)) : FileServer :=
  options.foldl (fun f option => option f)
    { errorHandler := fun _ => none, autoIndex := false,
      index := [str "index.html"], pathPrefix := [], root := root,
      handlerFunc := HandlerFunc.serve }

/-! ## A small tree for concrete runs -/

/-- A tree with a root directory `/` that holds `index.html` and an empty
directory `sub`, and the regular file `a.txt`; nothing else exists. -/
def demoTree : GoString → Except GoError (Except GoError Bool) := fun n =>
  if n = str "/" then Except.ok (Except.ok true)
  else if n = str "/index.html" then Except.ok (Except.ok false)
  else if n = str "/a.txt" then Except.ok (Except.ok false)
  else if n = str "/sub" then Except.ok (Except.ok true)
  else Except.error (GoError.ext (str "file does not exist"))

/-- Joining a directory name and an entry name with one separator. -/
def demoJoin (a b : GoString) : GoString :=
  if a = str "/" then a ++ b else a ++ str "/" ++ b

/-- An adapter over `demoTree` with nothing opened yet. -/
def demoDir (autoIndex : Bool) (index : List GoString) : Dir :=
  { autoIndex := autoIndex, index := index, err := none,
    fs := { tree := demoTree, log := [] } }

/-- The error of every name missing from `demoTree`. -/
def demoErrs : GoString → GoError := fun _ => GoError.ext (str "file does not exist")

/-- Base name for clean slash-separated paths: what follows the last slash. -/
def demoBase (p : GoString) : GoString :=
  (p.reverse.takeWhile (fun c => c ≠ 47)).reverse

/-- Parent directory for clean slash-separated paths: what precedes the last
slash, or `/` for an entry of the root. -/
def demoParent (p : GoString) : GoString :=
  if (p.reverse.dropWhile (fun c => c ≠ 47)).length ≤ 1 then
    (p.reverse.dropWhile (fun c => c ≠ 47)).reverse
  else
    (p.reverse.dropWhile (fun c => c ≠ 47)).reverse.dropLast

/-- A serving primitive in the manner of `http.FileServer`: it opens the
request path; when that fails it answers like `http.Error`, with 404 for a
missing file and 500 for any other error; otherwise it answers 200 and a body
naming the file that was opened. -/
def demoFileServer (r : Request) : Prim :=
  Prim.openFile r.path fun res =>
    match res with
    | Except.error e =>
      Prim.headerSet (str "Content-Type") (str "text/plain; charset=utf-8")
        (Prim.headerSet (str "X-Content-Type-Options") (str "nosniff")
          (if e = GoError.ext (str "file does not exist") then
            Prim.writeHeader 404
              (Prim.write (str "404 page not found\n") fun _ => Prim.done)
          else
            Prim.writeHeader 500
              (Prim.write (str "500 Internal Server Error\n") fun _ => Prim.done)))
    | Except.ok f =>
      Prim.writeHeader 200 (Prim.write (str "content of " ++ f.name) fun _ => Prim.done)

/-- The platform of the concrete runs: `demoTree` behind every root. -/
def demoPlatform : Platform :=
  { filepathBase := demoBase
    filepathDir := demoParent
    filepathJoin := demoJoin
    httpDir := fun _ => demoTree
    httpFileServer := demoFileServer }

/-- A fresh interceptor over `okTransport`, as `ServeHTTP` makes it (line 141). -/
def freshWrapper : ResponseWrapper := { rw := okTransport, statusCode := 0, buf := [] }

/-- An error handler that writes the status it is given and the body `custom`. -/
def customHandler : ErrorHandlerFunc := fun w _ code =>
  ((w.WriteHeader code).Write (str "custom")).1

/-- The server `New("/srv")` with no options. -/
def demoServer : FileServer := New (str "/srv") []

/-- The handles that a log shows opened and not closed, in the order of their
opening. -/
def openHandles (log : List FsEvent) : List Nat :=
  (log.filterMap fun e =>
    match e with
    | FsEvent.opened _ hid => some hid
    | _ => none).filter fun hid => decide (FsEvent.closed hid ∉ log)

/-- A tree like `demoTree` with one more entry, `/broken`, that opens but whose
`Stat()` fails. -/
def statFailTree : GoString → Except GoError (Except GoError Bool) := fun n =>
  if n = str "/broken" then Except.ok (Except.error (GoError.ext (str "stat failed")))
  else demoTree n

/-- An error handler that writes the status it is given and, as the body, the
URL path of the request it is given. -/
def pathEchoHandler : ErrorHandlerFunc := fun w r code =>
  ((w.WriteHeader code).Write r.path).1

/-- Where a request ends in a chain of dispatch functions: at the base serve
logic, or at a prefix wrapper that answers not found; in both cases with the
request as the wrappers passed on the way have rewritten it. -/
inductive Reached where
  | base (r : Request)
  | notFound (r : Request)
  deriving DecidableEq, Repr

/-- The path rewriting of a value of `handlerFunc` called with `(s, w, r)`,
without its effects on the writer: each wrapper trims `s.prefix` from the path
(line 113) and either stops, when the length is unchanged (line 115), or
assigns the trimmed path (line 121) and goes on to the function it captured;
the closure of lines 178-180 is the base serve logic. -/
def HandlerFunc.reach : HandlerFunc → FileServer → Request → Reached
  | HandlerFunc.serve, _, r => Reached.base r
  | HandlerFunc.strip previous, s, r =>
    if (TrimPrefix r.path s.pathPrefix).length = r.path.length then
      Reached.notFound r
    else
      HandlerFunc.reach previous s { r with path := TrimPrefix r.path s.pathPrefix }

/-! ## Helper lemmas: the interceptor -/

theorem write_of_lt (w : ResponseWrapper) (b : GoString) (h : w.statusCode < 400) :
    w.Write b = ({ w with rw := (w.rw.Write b).1 }, (w.rw.Write b).2) := by
  simp [ResponseWrapper.Write, StatusBadRequest, h]

theorem write_of_ge (w : ResponseWrapper) (b : GoString) (h : 400 ≤ w.statusCode) :
    w.Write b = ({ w with buf := b }, (0, some GoError.errNoContentWritten)) := by
  have h' : ¬ w.statusCode < 400 := not_lt.mpr h
  simp [ResponseWrapper.Write, StatusBadRequest, h']

theorem writeHeader_of_lt (w : ResponseWrapper) (code : Int) (h : code < 400) :
    w.WriteHeader code = { w with statusCode := code, rw := w.rw.WriteHeader code } := by
  simp [ResponseWrapper.WriteHeader, StatusBadRequest, h]

theorem writeHeader_of_ge (w : ResponseWrapper) (code : Int) (h : 400 ≤ code) :
    w.WriteHeader code = { w with statusCode := code } := by
  have h' : ¬ code < 400 := not_lt.mpr h
  simp [ResponseWrapper.WriteHeader, StatusBadRequest, h']

/-- While the held status stays at or above 400, a sequence of calls leaves the
real writer as it was and the held status at or above 400. -/
theorem run_held (later : List Call) :
    ∀ w : ResponseWrapper, 400 ≤ w.statusCode →
      (∀ k, Call.WriteHeader k ∈ later → 400 ≤ k) →
      (w.run later).rw = w.rw ∧ 400 ≤ (w.run later).statusCode := by
  induction later with
  | nil => intro w h _; exact ⟨rfl, h⟩
  | cons c cs ih =>
    intro w h hk
    have hcs : ∀ k, Call.WriteHeader k ∈ cs → 400 ≤ k :=
      fun k hmem => hk k (List.mem_cons_of_mem _ hmem)
    cases c with
    | WriteHeader k =>
      have h400 : 400 ≤ k := hk k (List.mem_cons_self _ _)
      have hstep : (w.step (Call.WriteHeader k)).1 = { w with statusCode := k } := by
        simp [ResponseWrapper.step, writeHeader_of_ge w k h400]
      simp only [ResponseWrapper.run, hstep]
      exact ih { w with statusCode := k } h400 hcs
    | Write b =>
      have hstep : (w.step (Call.Write b)).1 = { w with buf := b } := by
        simp [ResponseWrapper.step, write_of_ge w b h]
      simp only [ResponseWrapper.run, hstep]
      exact ih { w with buf := b } h hcs

/-! ## C1 - C3: the response interceptor -/

/-- C1, as stated, fails: after `WriteHeader(404)` a later `WriteHeader(200)`
lowers the held status again, and the `Write` that follows is forwarded to the
real writer and succeeds. -/
theorem C1_counterexample :
    (400 : Int) ≤ 404 ∧
    ((((ResponseWrapper.WriteHeader ⟨okTransport, 0, []⟩ 404).run
        [Call.WriteHeader 200]).Write (str "hi")).1.rw.events
      = [WEvent.writeHeader 200, WEvent.write (str "hi")]) ∧
    ((((ResponseWrapper.WriteHeader ⟨okTransport, 0, []⟩ 404).run
        [Call.WriteHeader 200]).Write (str "hi")).2 = (2, none)) ∧
    ((((ResponseWrapper.WriteHeader ⟨okTransport, 0, []⟩ 404).run
        [Call.WriteHeader 200]).Write (str "hi")).1.buf = []) := by
  decide

/-- C1 (amended): once `WriteHeader` has set a status code of 400 or more, and
as long as no later `WriteHeader` sets a code below 400, the later calls send
nothing to the real writer, and every `Write` made after them is captured into
`buf`, forwards nothing and returns `(0, errNoContentWritten)`. -/
theorem C1_writes_captured_while_status_held (w : ResponseWrapper) (code : Int)
    (later : List Call) (b : GoString) (hcode : 400 ≤ code)
    (hlater : ∀ k, Call.WriteHeader k ∈ later → 400 ≤ k) :
    ((w.WriteHeader code).run later).rw = w.rw ∧
    ((((w.WriteHeader code).run later).Write b).1.rw = w.rw) ∧
    ((((w.WriteHeader code).run later).Write b).1.buf = b) ∧
    ((((w.WriteHeader code).run later).Write b).2
      = (0, some GoError.errNoContentWritten)) := by
  have h0 : (w.WriteHeader code).rw = w.rw ∧ 400 ≤ (w.WriteHeader code).statusCode := by
    rw [writeHeader_of_ge w code hcode]; exact ⟨rfl, hcode⟩
  obtain ⟨hrw, hst⟩ := run_held later (w.WriteHeader code) h0.2 hlater
  rw [write_of_ge _ b hst]
  exact ⟨hrw.trans h0.1, hrw.trans h0.1, rfl, rfl⟩

/-- C1 at a concrete sequence: `WriteHeader(404)`, `Write`, `WriteHeader(500)`,
then a `Write`. -/
theorem C1_writes_captured_witness :
    ((((ResponseWrapper.WriteHeader ⟨okTransport, 0, []⟩ 404).run
        [Call.Write (str "a"), Call.WriteHeader 500]).rw = okTransport)) ∧
    (((((ResponseWrapper.WriteHeader ⟨okTransport, 0, []⟩ 404).run
        [Call.Write (str "a"), Call.WriteHeader 500]).Write (str "b")).1.rw
      = okTransport)) ∧
    (((((ResponseWrapper.WriteHeader ⟨okTransport, 0, []⟩ 404).run
        [Call.Write (str "a"), Call.WriteHeader 500]).Write (str "b")).1.buf
      = str "b")) ∧
    (((((ResponseWrapper.WriteHeader ⟨okTransport, 0, []⟩ 404).run
        [Call.Write (str "a"), Call.WriteHeader 500]).Write (str "b")).2
      = (0, some GoError.errNoContentWritten))) :=
  C1_writes_captured_while_status_held ⟨okTransport, 0, []⟩ 404
    [Call.Write (str "a"), Call.WriteHeader 500] (str "b") (by decide)
    (by
      intro k hk
      simp only [List.mem_cons, List.mem_singleton, Call.WriteHeader.injEq,
        List.not_mem_nil, or_false] at hk
      rcases hk with hk | hk
      · exact absurd hk (by simp)
      · subst hk; decide)

/-- C2: `Write(b)` does exactly one of two things. With `statusCode < 400` (0
included) it hands `b` to the real writer, which receives exactly that one
call, returns the real writer's results and leaves `buf` alone; otherwise it
sets `buf` to `b`, leaves the real writer alone and returns
`(0, errNoContentWritten)`. -/
theorem C2_write_forwards_or_captures (w : ResponseWrapper) (b : GoString) :
    (w.statusCode < 400 →
      (w.Write b).1.rw = (w.rw.Write b).1 ∧
      (w.Write b).1.rw.events = w.rw.events ++ [WEvent.write b] ∧
      (w.Write b).2 = (w.rw.Write b).2 ∧
      (w.Write b).1.buf = w.buf ∧
      (w.Write b).1.statusCode = w.statusCode) ∧
    (¬ w.statusCode < 400 →
      (w.Write b).1.buf = b ∧
      (w.Write b).1.rw = w.rw ∧
      (w.Write b).2 = (0, some GoError.errNoContentWritten) ∧
      (w.Write b).1.statusCode = w.statusCode) := by
  constructor
  · intro h
    rw [write_of_lt w b h]
    exact ⟨rfl, rfl, rfl, rfl, rfl⟩
  · intro h
    rw [write_of_ge w b (not_lt.mp h)]
    exact ⟨rfl, rfl, rfl, rfl⟩

/-- C3: `WriteHeader(code)` stores `code` as `statusCode` and leaves `buf`
alone; the real writer receives `WriteHeader(code)` if and only if
`code < 400`, and for a code of 400 or more it receives nothing. -/
theorem C3_writeHeader_stores_and_forwards_below_400 (w : ResponseWrapper)
    (code : Int) :
    (w.WriteHeader code).statusCode = code ∧
    (w.WriteHeader code).buf = w.buf ∧
    ((w.WriteHeader code).rw.events = w.rw.events ++ [WEvent.writeHeader code]
      ↔ code < 400) ∧
    (code < 400 → (w.WriteHeader code).rw = w.rw.WriteHeader code) ∧
    (¬ code < 400 → (w.WriteHeader code).rw = w.rw) := by
  by_cases h : code < 400
  · rw [writeHeader_of_lt w code h]
    exact ⟨rfl, rfl, ⟨fun _ => h, fun _ => rfl⟩, fun _ => rfl, fun h' => absurd h h'⟩
  · rw [writeHeader_of_ge w code (not_lt.mp h)]
    refine ⟨rfl, rfl, ⟨fun he => ?_, fun h' => absurd h' h⟩, fun h' => absurd h' h,
      fun _ => rfl⟩
    have hl := congrArg List.length he
    simp at hl

/-! ## Helper lemmas: the adapter -/

theorem fsOpen_error (fs : FileSystem) (name : GoString) (e : GoError)
    (h : fs.tree name = Except.error e) :
    fs.Open name =
      ({ fs with log := fs.log ++ [FsEvent.openFailed name e] }, Except.error e) := by
  simp [FileSystem.Open, h]

theorem fsOpen_ok (fs : FileSystem) (name : GoString) (st : Except GoError Bool)
    (h : fs.tree name = Except.ok st) :
    fs.Open name =
      ({ fs with log := fs.log ++ [FsEvent.opened name fs.log.length] },
        Except.ok { hid := fs.log.length, name := name, stat := st }) := by
  simp [FileSystem.Open, h]

/-- The index loop passes over names that do not open, logging each failure. -/
theorem openIndex_skip (join : GoString → GoString → GoString) (name : GoString)
    (errs : GoString → GoError) (rest : List GoString) (pre : List GoString) :
    ∀ fs : FileSystem,
      (∀ x ∈ pre, fs.tree (join name x) = Except.error (errs x)) →
      Dir.openIndex join fs name (pre ++ rest) =
        Dir.openIndex join
          { fs with log := fs.log ++
              pre.map (fun x => FsEvent.openFailed (join name x) (errs x)) }
          name rest := by
  induction pre with
  | nil => intro fs _; simp
  | cons x xs ih =>
    intro fs h
    have hx := h x (List.mem_cons_self _ _)
    have hxs : ∀ y ∈ xs,
        ({ fs with log := fs.log ++ [FsEvent.openFailed (join name x) (errs x)] } :
          FileSystem).tree (join name y) = Except.error (errs y) :=
      fun y hy => h y (List.mem_cons_of_mem _ hy)
    simp only [List.cons_append, Dir.openIndex, fsOpen_error fs _ _ hx, List.append_eq]
    rw [ih _ hxs]
    simp [List.append_assoc]

/-! ## C4 - C5: the indexed directory adapter -/

/-- C4: when `name` opens and is a directory, and the index list is
`pre ++ index :: post` where no name of `pre` opens under `name` and `index`
does, `Open` returns the handle of `join(name, index)`; the underlying file
system has seen the open of `name`, the failed opens of `pre` in order, the
open of `join(name, index)` and the close of the directory handle, and nothing
else, so nothing of `post` is opened; the recorded error is unchanged. -/
theorem C4_open_returns_first_index_that_opens
    (join : GoString → GoString → GoString) (d : Dir) (name index : GoString)
    (pre post : List GoString) (errs : GoString → GoError)
    (st : Except GoError Bool)
    (hname : d.fs.tree name = Except.ok (Except.ok true))
    (hidx : d.index = pre ++ index :: post)
    (hpre : ∀ x ∈ pre, d.fs.tree (join name x) = Except.error (errs x))
    (hindex : d.fs.tree (join name index) = Except.ok st) :
    (Dir.Open join d name).2 =
      Except.ok { hid := d.fs.log.length + 1 + pre.length, name := join name index,
                  stat := st } ∧
    (Dir.Open join d name).1.fs.log =
      d.fs.log ++ [FsEvent.opened name d.fs.log.length] ++
        pre.map (fun x => FsEvent.openFailed (join name x) (errs x)) ++
        [FsEvent.opened (join name index) (d.fs.log.length + 1 + pre.length),
         FsEvent.closed d.fs.log.length] ∧
    (Dir.Open join d name).1.err = d.err := by
  have hskip := openIndex_skip join name errs (index :: post) pre
    { d.fs with log := d.fs.log ++ [FsEvent.opened name d.fs.log.length] } hpre
  simp only [Dir.Open, fsOpen_ok d.fs name _ hname, hidx, hskip, Dir.openIndex]
  simp only [FileSystem.Open, hindex, FileSystem.Close, List.append_assoc,
    List.length_append, List.length_map, List.length_singleton, List.length_cons,
    List.length_nil, if_true, List.cons_append, List.nil_append]
  refine ⟨?_, ?_, trivial⟩
  · congr 2; omega
  · rw [Nat.add_assoc, Nat.add_comm 1 pre.length]

/-- C4 on `demoTree`: with index list `index.htm`, `index.html`, `default.html`
the directory `/` resolves to `/index.html`. -/
theorem C4_open_returns_first_index_witness :
    (Dir.Open demoJoin
        (demoDir false [str "index.htm", str "index.html", str "default.html"])
        (str "/")).2 =
      Except.ok { hid := 2, name := str "/index.html", stat := Except.ok false } ∧
    (Dir.Open demoJoin
        (demoDir false [str "index.htm", str "index.html", str "default.html"])
        (str "/")).1.fs.log =
      [FsEvent.opened (str "/") 0,
       FsEvent.openFailed (str "/index.htm") (GoError.ext (str "file does not exist")),
       FsEvent.opened (str "/index.html") 2, FsEvent.closed 0] ∧
    (Dir.Open demoJoin
        (demoDir false [str "index.htm", str "index.html", str "default.html"])
        (str "/")).1.err = none :=
  C4_open_returns_first_index_that_opens demoJoin
    (demoDir false [str "index.htm", str "index.html", str "default.html"])
    (str "/") (str "index.html") [str "index.htm"] [str "default.html"] demoErrs
    (Except.ok false) (by decide) (by decide) (by decide) (by decide)

/-- C5: when `name` opens and is a directory, no configured index name opens
under it and `autoIndex` is false, `Open` closes the directory handle (the last
thing the file system sees), records `errForbidden` in `err` and returns
`errForbidden` with no handle. -/
theorem C5_open_forbidden_without_index
    (join : GoString → GoString → GoString) (d : Dir) (name : GoString)
    (errs : GoString → GoError)
    (hname : d.fs.tree name = Except.ok (Except.ok true))
    (hnone : ∀ x ∈ d.index, d.fs.tree (join name x) = Except.error (errs x))
    (hauto : d.autoIndex = false) :
    (Dir.Open join d name).2 = Except.error GoError.errForbidden ∧
    (Dir.Open join d name).1.err = some GoError.errForbidden ∧
    (Dir.Open join d name).1.fs.log =
      d.fs.log ++ [FsEvent.opened name d.fs.log.length] ++
        d.index.map (fun x => FsEvent.openFailed (join name x) (errs x)) ++
        [FsEvent.closed d.fs.log.length] := by
  have hskip := openIndex_skip join name errs [] d.index
    { d.fs with log := d.fs.log ++ [FsEvent.opened name d.fs.log.length] } hnone
  rw [List.append_nil] at hskip
  simp [Dir.Open, fsOpen_ok d.fs name _ hname, hskip, Dir.openIndex, hauto,
    FileSystem.Close, List.append_assoc]

/-- C5 on `demoTree`: the empty directory `/sub` with autoindex off. -/
theorem C5_open_forbidden_witness :
    (Dir.Open demoJoin (demoDir false [str "index.html"]) (str "/sub")).2 =
      Except.error GoError.errForbidden ∧
    (Dir.Open demoJoin (demoDir false [str "index.html"]) (str "/sub")).1.err =
      some GoError.errForbidden ∧
    (Dir.Open demoJoin (demoDir false [str "index.html"]) (str "/sub")).1.fs.log =
      [FsEvent.opened (str "/sub") 0,
       FsEvent.openFailed (str "/sub/index.html")
         (GoError.ext (str "file does not exist")),
       FsEvent.closed 0] :=
  C5_open_forbidden_without_index demoJoin (demoDir false [str "index.html"])
    (str "/sub") demoErrs (by decide) (by decide) (by decide)

/-! ## Helper lemmas: the facade -/

/-- The redirect loop answers as soon as the base name is one of the names. -/
theorem redirect_of_mem (P : Platform) (w : RealWriter) (r : Request)
    (name : GoString) (index : List GoString) (h : name ∈ index) :
    FileServer.redirect P w r name index =
      some ((w.HeaderSet (str "Location")
        (if r.rawQuery ≠ [] then P.filepathDir r.path ++ (str "?" ++ r.rawQuery)
          else P.filepathDir r.path)).WriteHeader StatusMovedPermanently) := by
  induction index with
  | nil => cases h
  | cons x xs ih =>
    by_cases hx : x = name
    · simp [FileServer.redirect, hx]
    · have hmem : name ∈ xs := by
        rcases List.mem_cons.mp h with h1 | h1
        · exact absurd h1.symm hx
        · exact h1
      simp only [FileServer.redirect, hx, if_false]
      exact ih hmem

/-- The redirect loop ends without a redirect when no name is the base name. -/
theorem redirect_of_not_mem (P : Platform) (w : RealWriter) (r : Request)
    (name : GoString) (index : List GoString) (h : name ∉ index) :
    FileServer.redirect P w r name index = none := by
  induction index with
  | nil => rfl
  | cons x xs ih =>
    have hx : ¬ x = name := fun e => h (e ▸ List.mem_cons_self _ _)
    have hxs : name ∉ xs := fun e => h (List.mem_cons_of_mem _ e)
    simp only [FileServer.redirect, hx, if_false]
    exact ih hxs

/-- The library's `HasPrefix` decides the prefix relation on byte sequences. -/
theorem hasPrefix_iff (s p : GoString) : HasPrefix s p = true ↔ p <+: s := by
  unfold HasPrefix
  simp only [Bool.and_eq_true, decide_eq_true_eq]
  constructor
  · rintro ⟨_, h⟩
    exact h ▸ List.take_prefix _ _
  · rintro ⟨t, rfl⟩
    simp

theorem trimPrefix_of_isPrefix (s p : GoString) (h : p <+: s) :
    TrimPrefix s p = s.drop p.length := by
  simp [TrimPrefix, (hasPrefix_iff s p).mpr h]

theorem trimPrefix_of_not_isPrefix (s p : GoString) (h : ¬ p <+: s) :
    TrimPrefix s p = s := by
  have h' : HasPrefix s p = false := by
    cases hb : HasPrefix s p with
    | false => rfl
    | true => exact absurd ((hasPrefix_iff s p).mp hb) h
  simp [TrimPrefix, h']

/-- What `http.NotFound` leaves in an interceptor: the two headers have gone
to the real writer, status 404 is held and the message is captured. -/
theorem notFound_wrapper (w : ResponseWrapper) :
    httpNotFound ResponseWrapper.asWriter w =
      { rw := { w.rw with events := w.rw.events ++
                  [WEvent.setHeader (str "Content-Type")
                     (str "text/plain; charset=utf-8"),
                   WEvent.setHeader (str "X-Content-Type-Options") (str "nosniff")] },
        statusCode := 404,
        buf := str "404 page not found" ++ str "\n" } := by
  have h : ¬ StatusNotFound < StatusBadRequest := by decide
  have h' : ¬ (404 : Int) < StatusBadRequest := by decide
  simp [httpNotFound, httpError, ResponseWrapper.asWriter, ResponseWrapper.HeaderSet,
    ResponseWrapper.WriteHeader, ResponseWrapper.Write, RealWriter.HeaderSet, h, h',
    StatusNotFound]

/-- The wrapper made by `StripPrefix`, when the stored prefix is not empty and
starts the path: the previous dispatch function runs on the stripped path. -/
theorem strip_call_of_isPrefix (P : Platform) (g : HandlerFunc) (s : FileServer)
    (w : ResponseWrapper) (r : Request) (hp : s.pathPrefix ≠ [])
    (h : s.pathPrefix <+: r.path) :
    HandlerFunc.call P (HandlerFunc.strip g) s w r =
      HandlerFunc.call P g s w { r with path := r.path.drop s.pathPrefix.length } := by
  have hlen : ¬ (r.path.drop s.pathPrefix.length).length = r.path.length := by
    have h1 : 0 < s.pathPrefix.length := List.length_pos.mpr hp
    have h2 : s.pathPrefix.length ≤ r.path.length := h.length_le
    rw [List.length_drop]
    omega
  simp only [HandlerFunc.call, trimPrefix_of_isPrefix _ _ h, hlen, if_false]

/-- The wrapper made by `StripPrefix`, when the stored prefix does not start
the path: not found, then error dispatch. -/
theorem strip_call_of_not_isPrefix (P : Platform) (g : HandlerFunc) (s : FileServer)
    (w : ResponseWrapper) (r : Request) (h : ¬ s.pathPrefix <+: r.path) :
    HandlerFunc.call P (HandlerFunc.strip g) s w r =
      (s.handleError (httpNotFound ResponseWrapper.asWriter w) r, r) := by
  simp only [HandlerFunc.call, trimPrefix_of_not_isPrefix _ _ h, if_true]

/-- What `http.Error` sends to the real writer. -/
theorem httpError_real (w : RealWriter) (msg : GoString) (code : Int) :
    (httpError RealWriter.asWriter w msg code).events =
      w.events ++
        [WEvent.setHeader (str "Content-Type") (str "text/plain; charset=utf-8"),
         WEvent.setHeader (str "X-Content-Type-Options") (str "nosniff"),
         WEvent.writeHeader code,
         WEvent.write (msg ++ str "\n")] := by
  simp [httpError, RealWriter.asWriter, RealWriter.HeaderSet, RealWriter.WriteHeader,
    RealWriter.Write]

theorem handleError_of_some (f : FileServer) (w : ResponseWrapper) (r : Request)
    (fn : ErrorHandlerFunc) (h : f.lookupHandler w.statusCode = some fn) :
    f.handleError w r = { w with rw := fn w.rw r w.statusCode } := by
  simp [FileServer.handleError, h]

theorem handleError_of_none (f : FileServer) (w : ResponseWrapper) (r : Request)
    (h : f.lookupHandler w.statusCode = none) :
    f.handleError w r =
      { w with rw := httpError RealWriter.asWriter w.rw w.buf w.statusCode } := by
  simp [FileServer.handleError, h]

/-! ## C6: the index redirect -/

/-- C6: when the base name of the request path is one of the configured index
names, `ServeHTTP` sets `Location` on the real writer to `filepath.Dir` of the
path, followed by `?` and the raw query exactly when the raw query is not
empty, then writes status 301 there; the real writer receives nothing else,
the request is unchanged, and the outcome is the same whatever the dispatch
function is, which is never called. -/
theorem C6_index_name_redirects (P : Platform) (f : FileServer) (w : RealWriter)
    (r : Request) (h : P.filepathBase r.path ∈ f.index) :
    (f.ServeHTTP P w r).1.events =
      w.events ++
        [WEvent.setHeader (str "Location")
            (if r.rawQuery = [] then P.filepathDir r.path
              else P.filepathDir r.path ++ (str "?" ++ r.rawQuery)),
         WEvent.writeHeader 301] ∧
    (f.ServeHTTP P w r).2 = r ∧
    (∀ g : HandlerFunc,
      FileServer.ServeHTTP P { f with handlerFunc := g } w r = f.ServeHTTP P w r) := by
  have hred := redirect_of_mem P w r _ f.index h
  refine ⟨?_, ?_, ?_⟩
  · simp only [FileServer.ServeHTTP, hred]
    by_cases hq : r.rawQuery = [] <;>
      simp [hq, RealWriter.HeaderSet, RealWriter.WriteHeader, StatusMovedPermanently]
  · simp only [FileServer.ServeHTTP, hred]
  · intro g
    simp only [FileServer.ServeHTTP, hred]

/-- C6 on the demonstration platform: `/sub/index.html?a=1` is redirected to
`/sub?a=1`, and `/index.html` to `/`. -/
theorem C6_index_name_redirects_witness :
    ((FileServer.ServeHTTP demoPlatform (New (str "/srv") []) okTransport
        { path := str "/sub/index.html", rawQuery := str "a=1" }).1.events =
      okTransport.events ++
        [WEvent.setHeader (str "Location")
            (if str "a=1" = [] then demoPlatform.filepathDir (str "/sub/index.html")
              else demoPlatform.filepathDir (str "/sub/index.html") ++
                (str "?" ++ str "a=1")),
         WEvent.writeHeader 301]) ∧
    ((FileServer.ServeHTTP demoPlatform (New (str "/srv") []) okTransport
        { path := str "/sub/index.html", rawQuery := str "a=1" }).1.events =
      [WEvent.setHeader (str "Location") (str "/sub?a=1"), WEvent.writeHeader 301]) ∧
    ((FileServer.ServeHTTP demoPlatform (New (str "/srv") []) okTransport
        { path := str "/index.html", rawQuery := [] }).1.events =
      [WEvent.setHeader (str "Location") (str "/"), WEvent.writeHeader 301]) :=
  ⟨(C6_index_name_redirects demoPlatform (New (str "/srv") []) okTransport
      { path := str "/sub/index.html", rawQuery := str "a=1" } (by decide)).1,
    by decide, by decide⟩

/-! ## C7 - C8: prefix stripping -/

/-- C7, as stated, fails for the empty prefix: the empty prefix is a prefix of
`/a.txt`, yet the wrapper of `StripPrefix("")` holds 404 and runs error
dispatch (the client gets the 404 page), while the previous dispatch function,
had it been reached, would have served the file with status 200. -/
theorem C7_counterexample :
    HasPrefix (str "/a.txt") [] = true ∧
    (HandlerFunc.call demoPlatform (demoServer.StripPrefix []).handlerFunc
        (demoServer.StripPrefix []) freshWrapper
        { path := str "/a.txt", rawQuery := [] }).1.statusCode = 404 ∧
    (HandlerFunc.call demoPlatform (demoServer.StripPrefix []).handlerFunc
        (demoServer.StripPrefix []) freshWrapper
        { path := str "/a.txt", rawQuery := [] }).1.rw.events =
      [WEvent.setHeader (str "Content-Type") (str "text/plain; charset=utf-8"),
       WEvent.setHeader (str "X-Content-Type-Options") (str "nosniff"),
       WEvent.setHeader (str "Content-Type") (str "text/plain; charset=utf-8"),
       WEvent.setHeader (str "X-Content-Type-Options") (str "nosniff"),
       WEvent.writeHeader 404,
       WEvent.write (str "404 page not found\n\n")] ∧
    (HandlerFunc.call demoPlatform demoServer.handlerFunc
        (demoServer.StripPrefix []) freshWrapper
        { path := str "/a.txt", rawQuery := [] }).1.rw.events =
      [WEvent.writeHeader 200, WEvent.write (str "content of /a.txt")] := by
  decide

/-- C7 (amended): for every non-empty prefix `p` set by `StripPrefix` and every
request path. When `p` is not a prefix of the path, the wrapper leaves status
404 and the not-found message held in the interceptor and returns what error
dispatch makes of that, with the request unchanged and whatever the previous
dispatch function is, which is not called. When `p` is a prefix of the path,
the wrapper returns what the previous dispatch function returns for the path
without `p`. -/
theorem C7_strip_not_found_iff_no_prefix_match (P : Platform) (f : FileServer)
    (p : GoString) (w : ResponseWrapper) (r : Request) (hp : p ≠ []) :
    (¬ p <+: r.path →
      (HandlerFunc.call P (f.StripPrefix p).handlerFunc (f.StripPrefix p) w r =
        (f.handleError (httpNotFound ResponseWrapper.asWriter w) r, r)) ∧
      (httpNotFound ResponseWrapper.asWriter w).statusCode = 404 ∧
      (httpNotFound ResponseWrapper.asWriter w).buf =
        str "404 page not found" ++ str "\n" ∧
      (∀ g : HandlerFunc,
        HandlerFunc.call P (FileServer.StripPrefix { f with handlerFunc := g } p).handlerFunc
            (FileServer.StripPrefix { f with handlerFunc := g } p) w r =
          HandlerFunc.call P (f.StripPrefix p).handlerFunc (f.StripPrefix p) w r)) ∧
    (p <+: r.path →
      HandlerFunc.call P (f.StripPrefix p).handlerFunc (f.StripPrefix p) w r =
        HandlerFunc.call P f.handlerFunc (f.StripPrefix p) w
          { r with path := r.path.drop p.length }) := by
  constructor
  · intro h
    refine ⟨?_, ?_, ?_, ?_⟩
    · exact strip_call_of_not_isPrefix P f.handlerFunc (f.StripPrefix p) w r h
    · rw [notFound_wrapper]
    · rw [notFound_wrapper]
    · intro g
      rw [show (FileServer.StripPrefix { f with handlerFunc := g } p).handlerFunc
            = HandlerFunc.strip g from rfl,
        show (f.StripPrefix p).handlerFunc = HandlerFunc.strip f.handlerFunc from rfl,
        strip_call_of_not_isPrefix P g _ w r h,
        strip_call_of_not_isPrefix P f.handlerFunc _ w r h]
      rfl
  · intro h
    exact strip_call_of_isPrefix P f.handlerFunc (f.StripPrefix p) w r hp h

/-- C7 on the demonstration platform, prefix `/static`: the path `/other/a.txt`
ends as the 404 page on the real writer, the path `/static/a.txt` is served. -/
theorem C7_strip_not_found_witness :
    (str "/static" ≠ []) ∧ (¬ str "/static" <+: str "/other/a.txt") ∧
    (HandlerFunc.call demoPlatform (demoServer.StripPrefix (str "/static")).handlerFunc
        (demoServer.StripPrefix (str "/static")) freshWrapper
        { path := str "/other/a.txt", rawQuery := [] } =
      (demoServer.handleError (httpNotFound ResponseWrapper.asWriter freshWrapper)
        { path := str "/other/a.txt", rawQuery := [] },
       { path := str "/other/a.txt", rawQuery := [] })) ∧
    (HandlerFunc.call demoPlatform (demoServer.StripPrefix (str "/static")).handlerFunc
        (demoServer.StripPrefix (str "/static")) freshWrapper
        { path := str "/other/a.txt", rawQuery := [] }).1.rw.events =
      [WEvent.setHeader (str "Content-Type") (str "text/plain; charset=utf-8"),
       WEvent.setHeader (str "X-Content-Type-Options") (str "nosniff"),
       WEvent.setHeader (str "Content-Type") (str "text/plain; charset=utf-8"),
       WEvent.setHeader (str "X-Content-Type-Options") (str "nosniff"),
       WEvent.writeHeader 404,
       WEvent.write (str "404 page not found\n\n")] :=
  ⟨by decide, by decide,
    ((C7_strip_not_found_iff_no_prefix_match demoPlatform demoServer (str "/static")
      freshWrapper { path := str "/other/a.txt", rawQuery := [] } (by decide)).1
      (by decide)).1,
    by decide⟩

/-- C8: for a non-empty prefix `p` set by one `StripPrefix` call and a request
path `p ++ rest`, the wrapper returns exactly what one call of the previous
dispatch function returns for the same server and interceptor and the request
with its path rewritten to `rest`. -/
theorem C8_strip_calls_previous_with_rest (P : Platform) (f : FileServer)
    (p rest : GoString) (w : ResponseWrapper) (r : Request) (hp : p ≠ [])
    (hpath : r.path = p ++ rest) :
    HandlerFunc.call P (f.StripPrefix p).handlerFunc (f.StripPrefix p) w r =
      HandlerFunc.call P f.handlerFunc (f.StripPrefix p) w { r with path := rest } := by
  have hpre : p <+: r.path := ⟨rest, hpath.symm⟩
  have h := strip_call_of_isPrefix P f.handlerFunc (f.StripPrefix p) w r hp hpre
  have hdrop : r.path.drop p.length = rest := by
    rw [hpath]; exact List.drop_left' rfl
  rw [show (f.StripPrefix p).pathPrefix = p from rfl, hdrop] at h
  exact h

/-- C8 on the demonstration platform: with prefix `/static` the request
`/static/a.txt` reaches the base serve logic as `/a.txt`, which serves that
file; the request is left with the path `/a.txt`. -/
theorem C8_strip_calls_previous_witness :
    (HandlerFunc.call demoPlatform (demoServer.StripPrefix (str "/static")).handlerFunc
        (demoServer.StripPrefix (str "/static")) freshWrapper
        { path := str "/static/a.txt", rawQuery := [] } =
      HandlerFunc.call demoPlatform demoServer.handlerFunc
        (demoServer.StripPrefix (str "/static")) freshWrapper
        { path := str "/a.txt", rawQuery := [] }) ∧
    (HandlerFunc.call demoPlatform (demoServer.StripPrefix (str "/static")).handlerFunc
        (demoServer.StripPrefix (str "/static")) freshWrapper
        { path := str "/static/a.txt", rawQuery := [] }).1.rw.events =
      [WEvent.writeHeader 200, WEvent.write (str "content of /a.txt")] ∧
    (HandlerFunc.call demoPlatform (demoServer.StripPrefix (str "/static")).handlerFunc
        (demoServer.StripPrefix (str "/static")) freshWrapper
        { path := str "/static/a.txt", rawQuery := [] }).2 =
      { path := str "/a.txt", rawQuery := [] } :=
  ⟨C8_strip_calls_previous_with_rest demoPlatform demoServer (str "/static")
      (str "/a.txt") freshWrapper { path := str "/static/a.txt", rawQuery := [] }
      (by decide) (by decide),
    by decide, by decide⟩

/-! ## C9 - C10: error dispatch -/

/-- C9, as stated, fails when a nil function is registered for the exact status
code: with nil under 404 and a handler under 0, `handleError` for a held 404
does not invoke the handler under 0 (which would write `custom`); it writes the
default plain-text response. -/
theorem C9_counterexample :
    ((((demoServer.ErrorHandler 0 (some customHandler)).ErrorHandler 404 none).errorHandler
        404).isSome = true) ∧
    (((((demoServer.ErrorHandler 0 (some customHandler)).ErrorHandler 404 none).errorHandler
        404).getD none).isNone = true) ∧
    (((((demoServer.ErrorHandler 0 (some customHandler)).ErrorHandler 404 none).errorHandler
        0).getD none).isSome = true) ∧
    (FileServer.handleError
        ((demoServer.ErrorHandler 0 (some customHandler)).ErrorHandler 404 none)
        { rw := okTransport, statusCode := 404, buf := str "gone" }
        { path := str "/missing", rawQuery := [] }).rw.events =
      [WEvent.setHeader (str "Content-Type") (str "text/plain; charset=utf-8"),
       WEvent.setHeader (str "X-Content-Type-Options") (str "nosniff"),
       WEvent.writeHeader 404,
       WEvent.write (str "gone\n")] ∧
    (customHandler okTransport { path := str "/missing", rawQuery := [] } 404).events =
      [WEvent.writeHeader 404, WEvent.write (str "custom")] := by
  decide

/-- C9 (amended): `handleError` does exactly one of three things. If the held
status code is a key of the table with a non-nil function, it invokes that
function; if the key is absent and a non-nil function is registered under 0,
it invokes that one; otherwise (the key holds nil, or the key is absent and
key 0 is absent or holds nil) the real writer receives the plain-text headers,
the held status code and the pending body followed by a newline. An invoked
function receives the real writer, the request and the held status code. The
interceptor's status and pending body are not changed. -/
theorem C9_handleError_dispatch (f : FileServer) (w : ResponseWrapper) (r : Request) :
    (∀ fn, f.errorHandler w.statusCode = some (some fn) →
      (f.handleError w r).rw = fn w.rw r w.statusCode) ∧
    (∀ fn, f.errorHandler w.statusCode = none → f.errorHandler 0 = some (some fn) →
      (f.handleError w r).rw = fn w.rw r w.statusCode) ∧
    ((f.errorHandler w.statusCode = some none ∨
        (f.errorHandler w.statusCode = none ∧
          (f.errorHandler 0 = none ∨ f.errorHandler 0 = some none))) →
      (f.handleError w r).rw.events =
        w.rw.events ++
          [WEvent.setHeader (str "Content-Type") (str "text/plain; charset=utf-8"),
           WEvent.setHeader (str "X-Content-Type-Options") (str "nosniff"),
           WEvent.writeHeader w.statusCode,
           WEvent.write (w.buf ++ str "\n")]) ∧
    (f.handleError w r).statusCode = w.statusCode ∧
    (f.handleError w r).buf = w.buf := by
  refine ⟨?_, ?_, ?_, ?_, ?_⟩
  · intro fn h
    rw [handleError_of_some f w r fn (by simp [FileServer.lookupHandler, h])]
  · intro fn h h0
    rw [handleError_of_some f w r fn (by simp [FileServer.lookupHandler, h, h0])]
  · intro h
    have hnone : f.lookupHandler w.statusCode = none := by
      rcases h with h | ⟨h, h0 | h0⟩
      · simp [FileServer.lookupHandler, h]
      · simp [FileServer.lookupHandler, h, h0]
      · simp [FileServer.lookupHandler, h, h0]
    rw [handleError_of_none f w r hnone]
    exact httpError_real w.rw w.buf w.statusCode
  · cases h : f.lookupHandler w.statusCode with
    | none => rw [handleError_of_none f w r h]
    | some fn => rw [handleError_of_some f w r fn h]
  · cases h : f.lookupHandler w.statusCode with
    | none => rw [handleError_of_none f w r h]
    | some fn => rw [handleError_of_some f w r fn h]

/-- C10: when the serving primitive has returned with `errForbidden` recorded
in the adapter and any status of 400 or more held in the interceptor,
`serveHTTP` runs error dispatch with the held status replaced by 403: the
selected handler, if there is one, is called with status 403, and otherwise
the real writer receives status 403 with the pending body. -/
theorem C10_forbidden_dispatched_as_403 (P : Platform) (f : FileServer)
    (w : ResponseWrapper) (r : Request)
    (herr : (f.afterPrimitive P w r).d.err = some GoError.errForbidden)
    (hst : 400 ≤ (f.afterPrimitive P w r).w.statusCode) :
    f.serveHTTP P w r =
      (f.handleError { (f.afterPrimitive P w r).w with statusCode := 403 }
        (f.afterPrimitive P w r).r, (f.afterPrimitive P w r).r) ∧
    (f.serveHTTP P w r).1.statusCode = 403 ∧
    (∀ fn, f.lookupHandler 403 = some fn →
      (f.serveHTTP P w r).1.rw =
        fn (f.afterPrimitive P w r).w.rw (f.afterPrimitive P w r).r 403) ∧
    (f.lookupHandler 403 = none →
      (f.serveHTTP P w r).1.rw.events =
        (f.afterPrimitive P w r).w.rw.events ++
          [WEvent.setHeader (str "Content-Type") (str "text/plain; charset=utf-8"),
           WEvent.setHeader (str "X-Content-Type-Options") (str "nosniff"),
           WEvent.writeHeader 403,
           WEvent.write ((f.afterPrimitive P w r).w.buf ++ str "\n")]) := by
  have hserve : f.serveHTTP P w r =
      (f.handleError { (f.afterPrimitive P w r).w with statusCode := 403 }
        (f.afterPrimitive P w r).r, (f.afterPrimitive P w r).r) := by
    have hst' : (f.afterPrimitive P w r).w.statusCode ≥ StatusBadRequest := hst
    simp only [FileServer.serveHTTP, hst', herr, if_true, StatusForbidden]
  rw [hserve]
  refine ⟨rfl, ?_, ?_, ?_⟩
  · cases h : f.lookupHandler 403 with
    | none => rw [handleError_of_none f _ _ h]
    | some fn => rw [handleError_of_some f _ _ fn h]
  · intro fn h
    rw [handleError_of_some f _ _ fn h]
  · intro h
    rw [handleError_of_none f _ _ h]
    exact httpError_real _ _ _

/-- C10 on the demonstration platform: the empty directory `/sub` with
autoindex off. The primitive answers 500 for the adapter's error; the client
receives status 403. -/
theorem C10_forbidden_dispatched_witness :
    ((demoServer.afterPrimitive demoPlatform freshWrapper
        { path := str "/sub", rawQuery := [] }).w.statusCode = 500) ∧
    (demoServer.serveHTTP demoPlatform freshWrapper
        { path := str "/sub", rawQuery := [] }).1.statusCode = 403 ∧
    (demoServer.serveHTTP demoPlatform freshWrapper
        { path := str "/sub", rawQuery := [] }).1.rw.events =
      [WEvent.setHeader (str "Content-Type") (str "text/plain; charset=utf-8"),
       WEvent.setHeader (str "X-Content-Type-Options") (str "nosniff"),
       WEvent.setHeader (str "Content-Type") (str "text/plain; charset=utf-8"),
       WEvent.setHeader (str "X-Content-Type-Options") (str "nosniff"),
       WEvent.writeHeader 403,
       WEvent.write (str "500 Internal Server Error\n\n")] :=
  ⟨by decide,
    (C10_forbidden_dispatched_as_403 demoPlatform demoServer freshWrapper
      { path := str "/sub", rawQuery := [] } (by decide) (by decide)).2.1,
    by decide⟩

/-! ## Helper lemmas: the outcomes of `Dir.Open` -/

/-- The index loop finds nothing exactly when no index name opens. -/
theorem openIndex_none_iff (join : GoString → GoString → GoString) (name : GoString)
    (l : List GoString) :
    ∀ fs : FileSystem,
      (Dir.openIndex join fs name l).2 = none ↔
        ∀ x ∈ l, ∃ e, fs.tree (join name x) = Except.error e := by
  induction l with
  | nil => intro fs; simp [Dir.openIndex]
  | cons x xs ih =>
    intro fs
    cases hx : fs.tree (join name x) with
    | error e =>
      simp only [Dir.openIndex, fsOpen_error fs _ e hx]
      rw [ih]
      constructor
      · intro h y hy
        rcases List.mem_cons.mp hy with rfl | hy
        · exact ⟨e, hx⟩
        · exact h y hy
      · intro h y hy
        exact h y (List.mem_cons_of_mem _ hy)
    | ok st =>
      simp only [Dir.openIndex, fsOpen_ok fs _ st hx]
      constructor
      · intro h; cases h
      · intro h
        obtain ⟨e, he⟩ := h x (List.mem_cons_self _ _)
        rw [hx] at he; cases he

/-- `Open` when the underlying open fails. -/
theorem dirOpen_open_error (join : GoString → GoString → GoString) (d : Dir)
    (name : GoString) (e : GoError) (h : d.fs.tree name = Except.error e) :
    Dir.Open join d name =
      ({ d with fs := { d.fs with log := d.fs.log ++ [FsEvent.openFailed name e] },
                err := some e }, Except.error e) := by
  simp [Dir.Open, fsOpen_error d.fs name e h]

/-- `Open` when the underlying open succeeds and `Stat()` fails. -/
theorem dirOpen_stat_error (join : GoString → GoString → GoString) (d : Dir)
    (name : GoString) (e : GoError)
    (h : d.fs.tree name = Except.ok (Except.error e)) :
    Dir.Open join d name =
      ({ d with fs := { d.fs with log := d.fs.log ++
                          [FsEvent.opened name d.fs.log.length] },
                err := some e }, Except.error e) := by
  simp [Dir.Open, fsOpen_ok d.fs name _ h]

/-- `Open` on a regular file. -/
theorem dirOpen_file (join : GoString → GoString → GoString) (d : Dir)
    (name : GoString) (h : d.fs.tree name = Except.ok (Except.ok false)) :
    Dir.Open join d name =
      ({ d with fs := { d.fs with log := d.fs.log ++
                          [FsEvent.opened name d.fs.log.length] } },
        Except.ok { hid := d.fs.log.length, name := name, stat := Except.ok false }) := by
  simp [Dir.Open, fsOpen_ok d.fs name _ h]

/-- `Open` on a directory, in terms of what the index loop returns. -/
theorem dirOpen_dir (join : GoString → GoString → GoString) (d : Dir)
    (name : GoString) (h : d.fs.tree name = Except.ok (Except.ok true)) :
    Dir.Open join d name =
      match Dir.openIndex join
          { d.fs with log := d.fs.log ++ [FsEvent.opened name d.fs.log.length] }
          name d.index with
      | (fs2, some ff) =>
        ({ d with fs := fs2.Close ⟨d.fs.log.length, name, Except.ok true⟩ },
          Except.ok ff)
      | (fs2, none) =>
        if !d.autoIndex then
          ({ d with fs := fs2.Close ⟨d.fs.log.length, name, Except.ok true⟩,
                    err := some GoError.errForbidden },
            Except.error GoError.errForbidden)
        else
          ({ d with fs := fs2 },
            Except.ok { hid := d.fs.log.length, name := name, stat := Except.ok true }) := by
  simp [Dir.Open, fsOpen_ok d.fs name _ h]

/-! ## C11, C16, C17: the exits of `Dir.Open` -/

/-- C11 fails on the code at a name that opens and whose `Stat()` fails: `Open`
returns the stat error with no handle, the file system has seen the open of
the name and no close, and handle 0 is left open. The forbidden exit on the
empty directory `/sub` does close the handle it opened. -/
theorem C11_stat_failure_leaves_handle_open :
    (Dir.Open demoJoin
        { autoIndex := false, index := [str "index.html"], err := none,
          fs := { tree := statFailTree, log := [] } } (str "/broken")).2 =
      Except.error (GoError.ext (str "stat failed")) ∧
    (Dir.Open demoJoin
        { autoIndex := false, index := [str "index.html"], err := none,
          fs := { tree := statFailTree, log := [] } } (str "/broken")).1.fs.log =
      [FsEvent.opened (str "/broken") 0] ∧
    openHandles (Dir.Open demoJoin
        { autoIndex := false, index := [str "index.html"], err := none,
          fs := { tree := statFailTree, log := [] } } (str "/broken")).1.fs.log = [0] ∧
    openHandles (Dir.Open demoJoin
        { autoIndex := false, index := [str "index.html"], err := none,
          fs := { tree := statFailTree, log := [] } } (str "/sub")).1.fs.log = [] := by
  decide

/-- C16: `Open` returns the error `e` exactly when the underlying open of the
name fails with `e`, or the name opens and its `Stat()` fails with `e`, or the
name is a directory, no configured index name opens under it, `autoIndex` is
false and `e` is `errForbidden`. Whenever `Open` returns an error (so no
handle), the adapter's `err` field holds that error. -/
theorem C16_open_error_cases (join : GoString → GoString → GoString) (d : Dir)
    (name : GoString) (e : GoError) :
    ((Dir.Open join d name).2 = Except.error e ↔
      (d.fs.tree name = Except.error e ∨
       d.fs.tree name = Except.ok (Except.error e) ∨
       (d.fs.tree name = Except.ok (Except.ok true) ∧
        (∀ x ∈ d.index, ∃ e1, d.fs.tree (join name x) = Except.error e1) ∧
        d.autoIndex = false ∧ e = GoError.errForbidden))) ∧
    ((Dir.Open join d name).2 = Except.error e →
      (Dir.Open join d name).1.err = some e) := by
  cases h : d.fs.tree name with
  | error e0 =>
    rw [dirOpen_open_error join d name e0 h]
    simp
  | ok st =>
    cases st with
    | error e0 =>
      rw [dirOpen_stat_error join d name e0 h]
      simp
    | ok b =>
      cases b with
      | false =>
        rw [dirOpen_file join d name h]
        simp
      | true =>
        have hiff := openIndex_none_iff join name d.index
          { d.fs with log := d.fs.log ++ [FsEvent.opened name d.fs.log.length] }
        rw [dirOpen_dir join d name h]
        cases hoi : Dir.openIndex join
            { d.fs with log := d.fs.log ++ [FsEvent.opened name d.fs.log.length] }
            name d.index with
        | mk fs2 o =>
          rw [hoi] at hiff
          cases o with
          | some ff =>
            have hno : ¬ ∀ x ∈ d.index, ∃ e1, d.fs.tree (join name x) = Except.error e1 :=
              fun hall => by
                have := hiff.mpr hall
                cases this
            simp [hno]
          | none =>
            have hall : ∀ x ∈ d.index, ∃ e1, d.fs.tree (join name x) = Except.error e1 :=
              hiff.mp rfl
            cases ha : d.autoIndex with
            | false =>
              simp only [Bool.not_false, if_true]
              refine ⟨⟨fun he => ?_, fun he => ?_⟩, fun he => ?_⟩
              · exact Or.inr (Or.inr ⟨trivial, hall, trivial, by cases he; rfl⟩)
              · rcases he with he | he | ⟨_, _, _, he⟩
                · cases he
                · cases he
                · rw [he]
              · cases he; rfl
            | true =>
              simp

/-- C16 on `demoTree`: the missing name `/missing` fails with the error of the
underlying open, and that error is recorded. -/
theorem C16_open_error_witness :
    (Dir.Open demoJoin (demoDir false [str "index.html"]) (str "/missing")).2 =
      Except.error (GoError.ext (str "file does not exist")) ∧
    (Dir.Open demoJoin (demoDir false [str "index.html"]) (str "/missing")).1.err =
      some (GoError.ext (str "file does not exist")) :=
  ⟨((C16_open_error_cases demoJoin (demoDir false [str "index.html"]) (str "/missing")
      (GoError.ext (str "file does not exist"))).1).mpr (Or.inl (by decide)),
   (C16_open_error_cases demoJoin (demoDir false [str "index.html"]) (str "/missing")
      (GoError.ext (str "file does not exist"))).2 (by decide)⟩

/-- C17: when the name opens as a regular file, and when it opens as a
directory under which no configured index name opens while `autoIndex` is
true, `Open` returns the handle of the first open itself; the file system has
seen that open (and, for the directory, the failed index opens) and no close,
and the recorded error is unchanged. -/
theorem C17_open_returns_original_handle (join : GoString → GoString → GoString)
    (d : Dir) (name : GoString) (errs : GoString → GoError) :
    (d.fs.tree name = Except.ok (Except.ok false) →
      (Dir.Open join d name).2 =
        Except.ok { hid := d.fs.log.length, name := name, stat := Except.ok false } ∧
      (Dir.Open join d name).1.err = d.err ∧
      (Dir.Open join d name).1.fs.log =
        d.fs.log ++ [FsEvent.opened name d.fs.log.length]) ∧
    (d.fs.tree name = Except.ok (Except.ok true) →
      (∀ x ∈ d.index, d.fs.tree (join name x) = Except.error (errs x)) →
      d.autoIndex = true →
      (Dir.Open join d name).2 =
        Except.ok { hid := d.fs.log.length, name := name, stat := Except.ok true } ∧
      (Dir.Open join d name).1.err = d.err ∧
      (Dir.Open join d name).1.fs.log =
        d.fs.log ++ [FsEvent.opened name d.fs.log.length] ++
          d.index.map (fun x => FsEvent.openFailed (join name x) (errs x))) := by
  constructor
  · intro h
    rw [dirOpen_file join d name h]
    exact ⟨rfl, rfl, rfl⟩
  · intro h hnone hauto
    have hskip := openIndex_skip join name errs [] d.index
      { d.fs with log := d.fs.log ++ [FsEvent.opened name d.fs.log.length] } hnone
    rw [List.append_nil] at hskip
    rw [dirOpen_dir join d name h, hskip]
    simp [Dir.openIndex, hauto]

/-- C17 on `demoTree`: the regular file `/a.txt`, and the empty directory
`/sub` with autoindex on. -/
theorem C17_open_returns_original_witness :
    ((Dir.Open demoJoin (demoDir false [str "index.html"]) (str "/a.txt")).2 =
        Except.ok { hid := 0, name := str "/a.txt", stat := Except.ok false } ∧
      (Dir.Open demoJoin (demoDir false [str "index.html"]) (str "/a.txt")).1.err =
        none ∧
      (Dir.Open demoJoin (demoDir false [str "index.html"]) (str "/a.txt")).1.fs.log =
        [FsEvent.opened (str "/a.txt") 0]) ∧
    ((Dir.Open demoJoin (demoDir true [str "index.html"]) (str "/sub")).2 =
        Except.ok { hid := 0, name := str "/sub", stat := Except.ok true } ∧
      (Dir.Open demoJoin (demoDir true [str "index.html"]) (str "/sub")).1.err =
        none ∧
      (Dir.Open demoJoin (demoDir true [str "index.html"]) (str "/sub")).1.fs.log =
        [FsEvent.opened (str "/sub") 0,
         FsEvent.openFailed (str "/sub/index.html")
           (GoError.ext (str "file does not exist"))]) :=
  ⟨(C17_open_returns_original_handle demoJoin (demoDir false [str "index.html"])
      (str "/a.txt") demoErrs).1 (by decide),
   (C17_open_returns_original_handle demoJoin (demoDir true [str "index.html"])
      (str "/sub") demoErrs).2 (by decide) (by decide) (by decide)⟩

/-! ## Helper lemmas: the base serve logic and the entry point -/

/-- `serveHTTP` when the primitive has left a status of 400 or more. -/
theorem serveHTTP_of_ge (P : Platform) (f : FileServer) (w : ResponseWrapper)
    (r : Request) (h : 400 ≤ (f.afterPrimitive P w r).w.statusCode) :
    f.serveHTTP P w r =
      (f.handleError
        (if (f.afterPrimitive P w r).d.err = some GoError.errForbidden then
          { (f.afterPrimitive P w r).w with statusCode := 403 }
         else (f.afterPrimitive P w r).w)
        (f.afterPrimitive P w r).r, (f.afterPrimitive P w r).r) := by
  have h' : (f.afterPrimitive P w r).w.statusCode ≥ StatusBadRequest := h
  simp only [FileServer.serveHTTP, h', if_true, StatusForbidden]

/-- `serveHTTP` when the primitive has left a status below 400. -/
theorem serveHTTP_of_lt (P : Platform) (f : FileServer) (w : ResponseWrapper)
    (r : Request) (h : (f.afterPrimitive P w r).w.statusCode < 400) :
    f.serveHTTP P w r = ((f.afterPrimitive P w r).w, (f.afterPrimitive P w r).r) := by
  have h' : ¬ (f.afterPrimitive P w r).w.statusCode ≥ StatusBadRequest := not_le.mpr h
  simp only [FileServer.serveHTTP, h', if_false]

/-- `ServeHTTP` when the base name of the path is no index name: a fresh
interceptor goes to the dispatch function. -/
theorem ServeHTTP_of_not_mem (P : Platform) (f : FileServer) (w : RealWriter)
    (r : Request) (h : P.filepathBase r.path ∉ f.index) :
    f.ServeHTTP P w r =
      ((f.handlerFunc.call P f { rw := w, statusCode := 0, buf := [] } r).1.rw,
       (f.handlerFunc.call P f { rw := w, statusCode := 0, buf := [] } r).2) := by
  simp only [FileServer.ServeHTTP, redirect_of_not_mem P w r _ f.index h]

/-- The base serve logic hands a 404 that is not a recorded `errForbidden` to
the handler registered for 404, with the request as the primitive left it. -/
theorem serveHTTP_404_handler (P : Platform) (f : FileServer) (fn : ErrorHandlerFunc)
    (w : ResponseWrapper) (r : Request)
    (hfn : f.errorHandler 404 = some (some fn))
    (hst : (f.afterPrimitive P w r).w.statusCode = 404)
    (herr : (f.afterPrimitive P w r).d.err ≠ some GoError.errForbidden) :
    f.serveHTTP P w r =
      ({ (f.afterPrimitive P w r).w with
          rw := fn (f.afterPrimitive P w r).w.rw (f.afterPrimitive P w r).r 404 },
       (f.afterPrimitive P w r).r) := by
  have hge : 400 ≤ (f.afterPrimitive P w r).w.statusCode := by rw [hst]; decide
  have hlook : f.lookupHandler (f.afterPrimitive P w r).w.statusCode = some fn := by
    simp [FileServer.lookupHandler, hst, hfn]
  rw [serveHTTP_of_ge P f w r hge, if_neg herr, handleError_of_some f _ _ fn hlook, hst]
  simp only [hst]

/-! ## C12 - C13: handlers and layers behind a prefix -/

/-- C12, as stated, fails behind a matching prefix: with prefix `/static` and a
404 handler that echoes the path of the request it is given, the request
`/static/missing` reaches the handler with the path `/missing`, which is not
the path `ServeHTTP` received; the caller's request is left with that path. -/
theorem C12_counterexample :
    (FileServer.ServeHTTP demoPlatform
        ((demoServer.ErrorHandler 404 (some pathEchoHandler)).StripPrefix (str "/static"))
        okTransport { path := str "/static/missing", rawQuery := [] }).1.events =
      [WEvent.setHeader (str "Content-Type") (str "text/plain; charset=utf-8"),
       WEvent.setHeader (str "X-Content-Type-Options") (str "nosniff"),
       WEvent.writeHeader 404,
       WEvent.write (str "/missing")] ∧
    (FileServer.ServeHTTP demoPlatform
        ((demoServer.ErrorHandler 404 (some pathEchoHandler)).StripPrefix (str "/static"))
        okTransport { path := str "/static/missing", rawQuery := [] }).2.path =
      str "/missing" ∧
    str "/missing" ≠ str "/static/missing" := by
  decide

/-- A call of a dispatch function is the base serve logic on the request that
reaches it, or error dispatch on the interceptor after `http.NotFound` for the
request at which a wrapper stops. -/
theorem call_eq_reach (P : Platform) (h : HandlerFunc) (s : FileServer)
    (w : ResponseWrapper) :
    ∀ r : Request,
      HandlerFunc.call P h s w r =
        match HandlerFunc.reach h s r with
        | Reached.base r1 => s.serveHTTP P w r1
        | Reached.notFound r1 =>
          (s.handleError (httpNotFound ResponseWrapper.asWriter w) r1, r1) := by
  induction h with
  | serve => intro r; rfl
  | strip previous ih =>
    intro r
    by_cases hlen : (TrimPrefix r.path s.pathPrefix).length = r.path.length
    · simp only [HandlerFunc.call, HandlerFunc.reach, hlen, if_true]
    · simp only [HandlerFunc.call, HandlerFunc.reach, hlen, if_false]
      exact ih _

/-- C12 (amended): for every server, whatever chain of prefix wrappers it has,
with a function registered for 404 and no redirect. The function is invoked
with the real writer, status 404 and the request as it stands at dispatch,
which is also the request as `ServeHTTP` leaves it: its path has been
rewritten by every wrapper passed on the way. When a wrapper stops the request
with not found, that is the request at that wrapper; when the base serve logic
ends with a held 404 that is not a recorded `errForbidden`, it is the request
as the serving primitive left it. The path is the one `ServeHTTP` received
when there is no wrapper (up to the primitive) and when the outermost wrapper
stops the request; past a wrapper whose non-empty prefix matches, it is the
path without that prefix. -/
theorem C12_handler_404_gets_request_at_dispatch (P : Platform) (f : FileServer)
    (fn : ErrorHandlerFunc) (w : RealWriter) (r : Request)
    (hfn : f.errorHandler 404 = some (some fn))
    (hidx : P.filepathBase r.path ∉ f.index) :
    (∀ r1, HandlerFunc.reach f.handlerFunc f r = Reached.notFound r1 →
      (f.ServeHTTP P w r).1 =
        fn { w with events := w.events ++
                [WEvent.setHeader (str "Content-Type") (str "text/plain; charset=utf-8"),
                 WEvent.setHeader (str "X-Content-Type-Options") (str "nosniff")] }
          r1 404 ∧
      (f.ServeHTTP P w r).2 = r1) ∧
    (∀ r1, HandlerFunc.reach f.handlerFunc f r = Reached.base r1 →
      (f.afterPrimitive P { rw := w, statusCode := 0, buf := [] } r1).w.statusCode = 404 →
      (f.afterPrimitive P { rw := w, statusCode := 0, buf := [] } r1).d.err ≠
        some GoError.errForbidden →
      (f.ServeHTTP P w r).1 =
        fn (f.afterPrimitive P { rw := w, statusCode := 0, buf := [] } r1).w.rw
          (f.afterPrimitive P { rw := w, statusCode := 0, buf := [] } r1).r 404 ∧
      (f.ServeHTTP P w r).2 =
        (f.afterPrimitive P { rw := w, statusCode := 0, buf := [] } r1).r) ∧
    (f.handlerFunc = HandlerFunc.serve →
      HandlerFunc.reach f.handlerFunc f r = Reached.base r) ∧
    (∀ g, f.handlerFunc = HandlerFunc.strip g →
      (f.pathPrefix = [] ∨ ¬ f.pathPrefix <+: r.path) →
      HandlerFunc.reach f.handlerFunc f r = Reached.notFound r) ∧
    (∀ g, f.handlerFunc = HandlerFunc.strip g →
      f.pathPrefix ≠ [] → f.pathPrefix <+: r.path →
      HandlerFunc.reach f.handlerFunc f r =
        HandlerFunc.reach g f { r with path := r.path.drop f.pathPrefix.length }) := by
  have hcall := call_eq_reach P f.handlerFunc f { rw := w, statusCode := 0, buf := [] } r
  refine ⟨?_, ?_, ?_, ?_, ?_⟩
  · intro r1 hr
    have hc : HandlerFunc.call P f.handlerFunc f { rw := w, statusCode := 0, buf := [] } r =
        (f.handleError
          (httpNotFound ResponseWrapper.asWriter { rw := w, statusCode := 0, buf := [] })
          r1, r1) := by
      rw [hcall, hr]
    rw [ServeHTTP_of_not_mem P f w r hidx, hc, notFound_wrapper]
    have hlook : f.lookupHandler 404 = some fn := by
      simp [FileServer.lookupHandler, hfn]
    rw [handleError_of_some f _ r1 fn hlook]
    exact ⟨rfl, rfl⟩
  · intro r1 hr hst herr
    have hc : HandlerFunc.call P f.handlerFunc f { rw := w, statusCode := 0, buf := [] } r =
        f.serveHTTP P { rw := w, statusCode := 0, buf := [] } r1 := by
      rw [hcall, hr]
    rw [ServeHTTP_of_not_mem P f w r hidx, hc,
      serveHTTP_404_handler P f fn _ r1 hfn hst herr]
    exact ⟨rfl, rfl⟩
  · intro hs
    rw [hs]; rfl
  · intro g hs hno
    have hlen : (TrimPrefix r.path f.pathPrefix).length = r.path.length := by
      rcases hno with he | hn
      · rw [he]; simp [TrimPrefix, HasPrefix]
      · rw [trimPrefix_of_not_isPrefix _ _ hn]
    rw [hs]
    simp only [HandlerFunc.reach, hlen, if_true]
  · intro g hs hne hpre
    have hlen : ¬ (r.path.drop f.pathPrefix.length).length = r.path.length := by
      have h1 : 0 < f.pathPrefix.length := List.length_pos.mpr hne
      have h2 : f.pathPrefix.length ≤ r.path.length := hpre.length_le
      rw [List.length_drop]
      omega
    rw [hs]
    simp only [HandlerFunc.reach, trimPrefix_of_isPrefix _ _ hpre, hlen, if_false]

/-- C12 on the demonstration platform with two wrappers, `StripPrefix("/a")`
then `StripPrefix("/b")`, and the request `/b/x`: the newer wrapper strips
`/b`, the older one stops the request, and the handler is given the request
whose path is `/x`. -/
theorem C12_handler_404_layered_witness :
    (HandlerFunc.reach
        (((demoServer.ErrorHandler 404 (some pathEchoHandler)).StripPrefix
          (str "/a")).StripPrefix (str "/b")).handlerFunc
        (((demoServer.ErrorHandler 404 (some pathEchoHandler)).StripPrefix
          (str "/a")).StripPrefix (str "/b"))
        { path := str "/b/x", rawQuery := [] } =
      Reached.notFound { path := str "/x", rawQuery := [] }) ∧
    ((FileServer.ServeHTTP demoPlatform
        (((demoServer.ErrorHandler 404 (some pathEchoHandler)).StripPrefix
          (str "/a")).StripPrefix (str "/b"))
        okTransport { path := str "/b/x", rawQuery := [] }).1 =
      pathEchoHandler
        { okTransport with events := okTransport.events ++
            [WEvent.setHeader (str "Content-Type") (str "text/plain; charset=utf-8"),
             WEvent.setHeader (str "X-Content-Type-Options") (str "nosniff")] }
        { path := str "/x", rawQuery := [] } 404 ∧
     (FileServer.ServeHTTP demoPlatform
        (((demoServer.ErrorHandler 404 (some pathEchoHandler)).StripPrefix
          (str "/a")).StripPrefix (str "/b"))
        okTransport { path := str "/b/x", rawQuery := [] }).2 =
      { path := str "/x", rawQuery := [] }) ∧
    ((FileServer.ServeHTTP demoPlatform
        (((demoServer.ErrorHandler 404 (some pathEchoHandler)).StripPrefix
          (str "/a")).StripPrefix (str "/b"))
        okTransport { path := str "/b/x", rawQuery := [] }).1.events =
      [WEvent.setHeader (str "Content-Type") (str "text/plain; charset=utf-8"),
       WEvent.setHeader (str "X-Content-Type-Options") (str "nosniff"),
       WEvent.writeHeader 404,
       WEvent.write (str "/x")]) :=
  ⟨by decide,
   (C12_handler_404_gets_request_at_dispatch demoPlatform
      (((demoServer.ErrorHandler 404 (some pathEchoHandler)).StripPrefix
        (str "/a")).StripPrefix (str "/b"))
      pathEchoHandler okTransport { path := str "/b/x", rawQuery := [] }
      rfl (by decide)).1 { path := str "/x", rawQuery := [] } (by decide),
   by decide⟩

/-- C13 fails on the code: after `StripPrefix("/a")` and then
`StripPrefix("/b")` the request `/b/a/a.txt` does not reach the base serve
logic as `/a.txt` (which serves the file with status 200); the older wrapper
also strips the prefix stored last, `/b`, finds it missing from `/a/a.txt` and
answers 404. The path `/b/b/a.txt` is what reaches the base serve logic as
`/a.txt`. -/
theorem C13_layers_strip_last_prefix_twice :
    (FileServer.ServeHTTP demoPlatform
        ((demoServer.StripPrefix (str "/a")).StripPrefix (str "/b"))
        okTransport { path := str "/b/a/a.txt", rawQuery := [] }).1.events =
      [WEvent.setHeader (str "Content-Type") (str "text/plain; charset=utf-8"),
       WEvent.setHeader (str "X-Content-Type-Options") (str "nosniff"),
       WEvent.setHeader (str "Content-Type") (str "text/plain; charset=utf-8"),
       WEvent.setHeader (str "X-Content-Type-Options") (str "nosniff"),
       WEvent.writeHeader 404,
       WEvent.write (str "404 page not found\n\n")] ∧
    (FileServer.ServeHTTP demoPlatform
        ((demoServer.StripPrefix (str "/a")).StripPrefix (str "/b"))
        okTransport { path := str "/b/a/a.txt", rawQuery := [] }).2.path =
      str "/a/a.txt" ∧
    (FileServer.serveHTTP demoPlatform
        ((demoServer.StripPrefix (str "/a")).StripPrefix (str "/b"))
        freshWrapper { path := str "/a.txt", rawQuery := [] }).1.rw.events =
      [WEvent.writeHeader 200, WEvent.write (str "content of /a.txt")] ∧
    (FileServer.ServeHTTP demoPlatform
        ((demoServer.StripPrefix (str "/a")).StripPrefix (str "/b"))
        okTransport { path := str "/b/b/a.txt", rawQuery := [] }).1.events =
      [WEvent.writeHeader 200, WEvent.write (str "content of /a.txt")] := by
  decide

/-! ## C14 - C15: construction and options -/

/-- C14: `New(root)` with no options has the index list `index.html`, autoindex
off, the empty prefix, an empty error-handler table, the given root and the
base dispatch function. With options the result is the left-to-right fold of
the options over that server: the first option is applied to the default
server, and an option appended last is applied to the result of the others. -/
theorem C14_new_defaults_and_fold (root : GoString)
    (options : List (FileServer → FileServer)) :
    (New root []).index = [str "index.html"] ∧
    (New root []).autoIndex = false ∧
    (New root []).pathPrefix = [] ∧
    (∀ code, (New root []).errorHandler code = none) ∧
    (New root []).root = root ∧
    (New root []).handlerFunc = HandlerFunc.serve ∧
    New root options = options.foldl (fun f option => option f) (New root []) ∧
    (∀ o, New root (o :: options) =
      options.foldl (fun f option => option f) (o (New root []))) ∧
    (∀ o, New root (options ++ [o]) = o (New root options)) := by
  refine ⟨rfl, rfl, rfl, fun _ => rfl, rfl, rfl, rfl, fun _ => rfl, fun o => ?_⟩
  simp [New, List.foldl_append]

/-- C15, as stated, fails for two options that set the same part of the
configuration: the later one wins, so the order shows. Two `AutoIndex`
options, two `Index` options, and two `ErrorHandler` options for the same
code each give different servers in the two orders. -/
theorem C15_counterexample :
    (New (str "/srv") [fun f => f.AutoIndex true, fun f => f.AutoIndex false]).autoIndex
      = false ∧
    (New (str "/srv") [fun f => f.AutoIndex false, fun f => f.AutoIndex true]).autoIndex
      = true ∧
    (New (str "/srv") [fun f => f.Index [str "a.html"],
        fun f => f.Index [str "b.html"]]).index = [str "b.html"] ∧
    (New (str "/srv") [fun f => f.Index [str "b.html"],
        fun f => f.Index [str "a.html"]]).index = [str "a.html"] ∧
    (FileServer.handleError
        (New (str "/srv") [fun f => f.ErrorHandler 404 (some customHandler),
          fun f => f.ErrorHandler 404 (some pathEchoHandler)])
        { rw := okTransport, statusCode := 404, buf := [] }
        { path := str "/x", rawQuery := [] }).rw.events =
      [WEvent.writeHeader 404, WEvent.write (str "/x")] ∧
    (FileServer.handleError
        (New (str "/srv") [fun f => f.ErrorHandler 404 (some pathEchoHandler),
          fun f => f.ErrorHandler 404 (some customHandler)])
        { rw := okTransport, statusCode := 404, buf := [] }
        { path := str "/x", rawQuery := [] }).rw.events =
      [WEvent.writeHeader 404, WEvent.write (str "custom")] := by
  decide

/-- C15 (amended): two options that set different parts of the configuration
give the same server in either order: `AutoIndex` with `Index`, `AutoIndex`
with `ErrorHandler`, `Index` with `ErrorHandler`, and two `ErrorHandler`
options for different codes. Of two options that set the same part, the one
applied later wins. -/
theorem C15_options_on_different_parts_commute (f : FileServer) (a b : Bool)
    (k l : List GoString) (c1 c2 : Int) (fn1 fn2 : Option ErrorHandlerFunc) :
    (f.AutoIndex a).Index k = (f.Index k).AutoIndex a ∧
    (f.AutoIndex a).ErrorHandler c1 fn1 = (f.ErrorHandler c1 fn1).AutoIndex a ∧
    (f.Index k).ErrorHandler c1 fn1 = (f.ErrorHandler c1 fn1).Index k ∧
    (c1 ≠ c2 →
      (f.ErrorHandler c1 fn1).ErrorHandler c2 fn2 =
        (f.ErrorHandler c2 fn2).ErrorHandler c1 fn1) ∧
    (f.AutoIndex a).AutoIndex b = f.AutoIndex b ∧
    (f.Index k).Index l = f.Index l ∧
    (f.ErrorHandler c1 fn1).ErrorHandler c1 fn2 = f.ErrorHandler c1 fn2 := by
  refine ⟨rfl, rfl, rfl, fun hne => ?_, rfl, rfl, ?_⟩
  · simp only [FileServer.ErrorHandler, FileServer.mk.injEq, and_true]
    funext c
    by_cases h1 : c = c1
    · have h2 : ¬ c = c2 := fun h => hne (h1.symm.trans h)
      simp [h1, h2, hne]
    · simp [h1]
  · simp only [FileServer.ErrorHandler, FileServer.mk.injEq, and_true]
    funext c
    by_cases h1 : c = c1 <;> simp [h1]

/-! ## C18 - C20: the behaviour of error dispatch -/

/-- C18: when `serveHTTP` replaces the held status by 403 because the adapter
recorded `errForbidden`, the pending body stays what it was when the
primitive returned; with no function registered for 403 and none for 0, the
real writer receives status 403 and that pending body (followed by the newline
that `http.Error` prints). -/
theorem C18_reclassification_keeps_pending_body (P : Platform) (f : FileServer)
    (w : ResponseWrapper) (r : Request)
    (herr : (f.afterPrimitive P w r).d.err = some GoError.errForbidden)
    (hst : 400 ≤ (f.afterPrimitive P w r).w.statusCode)
    (hexact : f.errorHandler 403 = none) (hfallback : f.errorHandler 0 = none) :
    (f.serveHTTP P w r).1.buf = (f.afterPrimitive P w r).w.buf ∧
    (f.serveHTTP P w r).1.statusCode = 403 ∧
    (f.serveHTTP P w r).1.rw.events =
      (f.afterPrimitive P w r).w.rw.events ++
        [WEvent.setHeader (str "Content-Type") (str "text/plain; charset=utf-8"),
         WEvent.setHeader (str "X-Content-Type-Options") (str "nosniff"),
         WEvent.writeHeader 403,
         WEvent.write ((f.afterPrimitive P w r).w.buf ++ str "\n")] := by
  have hlook : f.lookupHandler 403 = none := by
    simp [FileServer.lookupHandler, hexact, hfallback]
  rw [serveHTTP_of_ge P f w r hst, if_pos herr, handleError_of_none f _ _ hlook]
  exact ⟨rfl, rfl, httpError_real _ _ _⟩

/-- C18 on the demonstration platform: for the empty directory `/sub` the
primitive answers 500 and tries to write `500 Internal Server Error`; the
client receives status 403 with that text. -/
theorem C18_reclassification_witness :
    ((demoServer.afterPrimitive demoPlatform freshWrapper
        { path := str "/sub", rawQuery := [] }).w.statusCode = 500) ∧
    ((demoServer.afterPrimitive demoPlatform freshWrapper
        { path := str "/sub", rawQuery := [] }).w.buf =
      str "500 Internal Server Error\n") ∧
    ((demoServer.serveHTTP demoPlatform freshWrapper
        { path := str "/sub", rawQuery := [] }).1.buf =
      (demoServer.afterPrimitive demoPlatform freshWrapper
        { path := str "/sub", rawQuery := [] }).w.buf) ∧
    ((demoServer.serveHTTP demoPlatform freshWrapper
        { path := str "/sub", rawQuery := [] }).1.rw.events =
      [WEvent.setHeader (str "Content-Type") (str "text/plain; charset=utf-8"),
       WEvent.setHeader (str "X-Content-Type-Options") (str "nosniff"),
       WEvent.setHeader (str "Content-Type") (str "text/plain; charset=utf-8"),
       WEvent.setHeader (str "X-Content-Type-Options") (str "nosniff"),
       WEvent.writeHeader 403,
       WEvent.write (str "500 Internal Server Error\n\n")]) :=
  ⟨by decide, by decide,
   (C18_reclassification_keeps_pending_body demoPlatform demoServer freshWrapper
      { path := str "/sub", rawQuery := [] } (by decide) (by decide) rfl rfl).1,
   by decide⟩

/-- C19: when the held status code is a key of the table that holds a nil
function, `handleError` writes the default plain-text response whatever is
registered under 0. When the held status code (other than 0) is a key of the
table at all, what is registered under 0 has no effect on the outcome; when it
is not a key, a non-nil function under 0 is the one invoked. -/
theorem C19_nil_handler_blocks_fallback (f : FileServer) (w : ResponseWrapper)
    (r : Request) :
    (f.errorHandler w.statusCode = some none →
      (f.handleError w r).rw.events =
        w.rw.events ++
          [WEvent.setHeader (str "Content-Type") (str "text/plain; charset=utf-8"),
           WEvent.setHeader (str "X-Content-Type-Options") (str "nosniff"),
           WEvent.writeHeader w.statusCode,
           WEvent.write (w.buf ++ str "\n")]) ∧
    (∀ x g, f.errorHandler w.statusCode = some x → w.statusCode ≠ 0 →
      (f.ErrorHandler 0 g).handleError w r = f.handleError w r) ∧
    (∀ fn, f.errorHandler w.statusCode = none → f.errorHandler 0 = some (some fn) →
      (f.handleError w r).rw = fn w.rw r w.statusCode) := by
  refine ⟨fun hnil => ?_, fun x g hx hne => ?_, fun fn h h0 => ?_⟩
  · have hlook : f.lookupHandler w.statusCode = none := by
      simp [FileServer.lookupHandler, hnil]
    rw [handleError_of_none f w r hlook]
    exact httpError_real _ _ _
  · have hlook : (f.ErrorHandler 0 g).lookupHandler w.statusCode =
        f.lookupHandler w.statusCode := by
      simp [FileServer.lookupHandler, FileServer.ErrorHandler, hne, hx]
    simp only [FileServer.handleError, hlook]
  · rw [handleError_of_some f w r fn (by simp [FileServer.lookupHandler, h, h0])]

/-- C19 at a concrete table: nil under 404 and `customHandler` under 0. A held
404 gets the default response; a held 500, which is not a key, gets the
handler under 0. -/
theorem C19_nil_handler_witness :
    (FileServer.handleError
        ((demoServer.ErrorHandler 0 (some customHandler)).ErrorHandler 404 none)
        { rw := okTransport, statusCode := 404, buf := str "gone" }
        { path := str "/missing", rawQuery := [] }).rw.events =
      okTransport.events ++
        [WEvent.setHeader (str "Content-Type") (str "text/plain; charset=utf-8"),
         WEvent.setHeader (str "X-Content-Type-Options") (str "nosniff"),
         WEvent.writeHeader 404,
         WEvent.write (str "gone" ++ str "\n")] ∧
    (FileServer.handleError
        ((demoServer.ErrorHandler 0 (some customHandler)).ErrorHandler 404 none)
        { rw := okTransport, statusCode := 500, buf := str "boom" }
        { path := str "/missing", rawQuery := [] }).rw.events =
      [WEvent.writeHeader 500, WEvent.write (str "custom")] :=
  ⟨(C19_nil_handler_blocks_fallback
      ((demoServer.ErrorHandler 0 (some customHandler)).ErrorHandler 404 none)
      { rw := okTransport, statusCode := 404, buf := str "gone" }
      { path := str "/missing", rawQuery := [] }).1 rfl,
   by decide⟩

/-- C20: the base serve logic runs error dispatch if and only if the status
held when the primitive returns is 400 or more. With 400 or more, the outcome
is what `handleError` makes of the interceptor (with 403 for a recorded
`errForbidden`). Below 400 (0 included) the interceptor and with it the real
writer are exactly as the primitive left them, whatever the error-handler
table holds. -/
theorem C20_error_dispatch_iff_status_ge_400 (P : Platform) (f : FileServer)
    (w : ResponseWrapper) (r : Request) :
    (400 ≤ (f.afterPrimitive P w r).w.statusCode →
      f.serveHTTP P w r =
        (f.handleError
          (if (f.afterPrimitive P w r).d.err = some GoError.errForbidden then
            { (f.afterPrimitive P w r).w with statusCode := 403 }
           else (f.afterPrimitive P w r).w)
          (f.afterPrimitive P w r).r, (f.afterPrimitive P w r).r)) ∧
    ((f.afterPrimitive P w r).w.statusCode < 400 →
      f.serveHTTP P w r = ((f.afterPrimitive P w r).w, (f.afterPrimitive P w r).r) ∧
      (f.serveHTTP P w r).1.rw = (f.afterPrimitive P w r).w.rw ∧
      (∀ table : Int → Option (Option ErrorHandlerFunc),
        FileServer.serveHTTP P { f with errorHandler := table } w r =
          f.serveHTTP P w r)) := by
  refine ⟨fun h => serveHTTP_of_ge P f w r h, fun h => ?_⟩
  have hs := serveHTTP_of_lt P f w r h
  refine ⟨hs, by rw [hs], fun table => ?_⟩
  have ht : FileServer.afterPrimitive P { f with errorHandler := table } w r =
      f.afterPrimitive P w r := rfl
  have hs' := serveHTTP_of_lt P { f with errorHandler := table } w r (by rw [ht]; exact h)
  rw [hs', hs, ht]

/-- C20 on the demonstration platform with `customHandler` registered under 0:
the file `/a.txt` ends with status 200 and reaches the client untouched by any
handler; the missing `/missing` ends with 404 and goes to the handler. -/
theorem C20_error_dispatch_witness :
    ((FileServer.serveHTTP demoPlatform (demoServer.ErrorHandler 0 (some customHandler))
        freshWrapper { path := str "/a.txt", rawQuery := [] }).1.rw.events =
      [WEvent.writeHeader 200, WEvent.write (str "content of /a.txt")]) ∧
    ((FileServer.serveHTTP demoPlatform (demoServer.ErrorHandler 0 (some customHandler))
        freshWrapper { path := str "/a.txt", rawQuery := [] }).1.rw =
      (FileServer.afterPrimitive demoPlatform
        (demoServer.ErrorHandler 0 (some customHandler))
        freshWrapper { path := str "/a.txt", rawQuery := [] }).w.rw) ∧
    ((FileServer.serveHTTP demoPlatform (demoServer.ErrorHandler 0 (some customHandler))
        freshWrapper { path := str "/missing", rawQuery := [] }).1.rw.events =
      [WEvent.setHeader (str "Content-Type") (str "text/plain; charset=utf-8"),
       WEvent.setHeader (str "X-Content-Type-Options") (str "nosniff"),
       WEvent.writeHeader 404, WEvent.write (str "custom")]) :=
  ⟨by decide,
   ((C20_error_dispatch_iff_status_ge_400 demoPlatform
      (demoServer.ErrorHandler 0 (some customHandler)) freshWrapper
      { path := str "/a.txt", rawQuery := [] }).2 (by decide)).2.1,
   by decide⟩

end Fs
